import Mathlib

/-!
Shallow embedding of the NewsletterPodApp ingestion / classification /
summarization pipeline (Python sources under src/backend and src/parsers),
together with theorems settling the frozen claims about it.

Conventions used throughout:
* Python strings are Lean `String`s; `s.split(sep)` (for a non-empty
  separator) is `pySplit` below, `pat in s` is tested by counting the
  parts the split produces, `s.strip()` is `pyStrip`, `s[:n]` is
  `pyTake`, and `s.lower()` is `pyLower`.
* Machine time (datetime values reduced to a UTC instant) is an `Int`
  number of seconds; `timedelta(days = d)` is `d * 86400`.
* Fallible Python code (statements that can raise) is modelled with
  `Except String`; a caught exception is a `.error` value consumed by the
  embedding of the corresponding `except` block.
* External collaborators (the Gmail client, BeautifulSoup extraction,
  the Anthropic client, `email.utils.parsedate_to_datetime`, the wall
  clock) are oracle parameters threaded explicitly.
-/

/-- Fuel-indexed worker for the split scanner: scan left to right and
cut at every non-overlapping occurrence of the separator. One unit of
fuel is spent per scanned character, so any fuel of at least the input's
length gives the same answer. -/
def listSplitOnF (sep : List Char) : Nat → List Char → List (List Char)
  | _, [] => [[]]
  | 0, cs => [cs]
  | fuel + 1, c :: cs =>
    if sep.isPrefixOf (c :: cs) then
      [] :: listSplitOnF sep fuel (List.drop (sep.length - 1) cs)
    else
      match listSplitOnF sep fuel cs with
      | [] => [[c]]
      | p :: ps => (c :: p) :: ps

/-- Python `s.split(sep)` on character lists, for a non-empty
separator. -/
def listSplitOn (sep cs : List Char) : List (List Char) :=
  listSplitOnF sep cs.length cs

/-- Python `s.split(sep)` for a non-empty separator, on strings. -/
def pySplit (s sep : String) : List String :=
  (listSplitOn sep.toList s.toList).map String.mk

/-- Python `s.lower()` (character-wise lowering). -/
def pyLower (s : String) : String :=
  String.mk (s.toList.map Char.toLower)

/-- Python `s.startswith(p)`. -/
def pyStartsWith (s pre : String) : Bool :=
  pre.toList.isPrefixOf s.toList

/-- Python `s.replace(old, new)` for a non-empty old: rejoin the split
parts with the replacement. -/
def pyReplace (s old new : String) : String :=
  String.intercalate new (pySplit s old)

/-- Python `s.strip()` on character lists: drop whitespace from both
ends. -/
def stripChars (cs : List Char) : List Char :=
  ((cs.dropWhile fun c => c.isWhitespace).reverse.dropWhile fun c => c.isWhitespace).reverse

/-- Python `s.strip()`. -/
def pyStrip (s : String) : String :=
  String.mk (stripChars s.toList)

/-- Python `s[:n]` (truncation to the first n characters). -/
def pyTake (s : String) (n : Nat) : String :=
  String.mk (s.toList.take n)

/-- Python substring containment `pat in s` for a non-empty pattern:
the pattern occurs in the string iff splitting on it yields at least two
parts. -/
def strContains (s pat : String) : Bool :=
  2 ≤ (pySplit s pat).length

/-- Python `s.count(pat)` for a non-empty pattern: the number of
non-overlapping occurrences, scanned left to right. -/
def countSubstr (s pat : String) : Nat :=
  (pySplit s pat).length - 1

/-- Python `s.startswith((p1, p2, ...))`: true when some listed target
is a prefix of the string. -/
def startsWithAny (s : String) (pats : List String) : Bool :=
  pats.any (fun p => pyStartsWith s p)

namespace NewsletterParser

/-- Embedding of NewsletterParser._detect_platform
(src/parsers/newsletter_parser.py, lines 164-189): lower-case the sender
address and the HTML, then test the match clauses in source order and
return the first platform tag whose clause holds, defaulting to
"generic". -/
def detect_platform (sender_email html_content : String) : String :=
  let email_lower := pyLower sender_email
  let html_lower := pyLower html_content
  if strContains email_lower "substack.com" then "substack"
  else if strContains email_lower "beehiiv.com" || strContains html_lower "beehiiv" then "beehiiv"
  else if strContains html_lower "convertkit" || strContains email_lower "kit-mail" then "convertkit"
  else if strContains email_lower "tldrnewsletter.com" || strContains email_lower "tldr" then "tldr"
  else if strContains email_lower "stratechery.com" then "stratechery"
  else "generic"

/-- One anchor element carrying an href attribute, as produced by
BeautifulSoup's query for anchor tags with href present. The extraction
strategies only inspect the href string and the anchor text, so the
surrounding HTML is abstracted to the list of such anchors. -/
structure Anchor where
  href : String
  text : String
deriving DecidableEq, Repr

/-- One entry of a strategy's returned links list. -/
structure LinkEntry where
  url : String
  text : String
deriving DecidableEq, Repr

/-- Link collection loop of SubstackParser.parse
(src/parsers/newsletter_parser.py, lines 293-300): keep anchors with a
truthy (non-empty) href that does not start with "mailto:", "#" or
"javascript:". -/
def substackCollectLinks (anchors : List Anchor) : List LinkEntry :=
  (anchors.filter fun a =>
    a.href ≠ "" && !(startsWithAny a.href ["mailto:", "#", "javascript:"])).map
    fun a => ⟨a.href, a.text⟩

/-- Link collection loop of BeehiivParser.parse (lines 357-365): keep
anchors with a non-empty href not starting with "mailto:" or "#".
The "javascript:" exclusion of the Substack loop is absent here. -/
def beehiivCollectLinks (anchors : List Anchor) : List LinkEntry :=
  (anchors.filter fun a =>
    a.href ≠ "" && !(startsWithAny a.href ["mailto:", "#"])).map
    fun a => ⟨a.href, a.text⟩

/-- Link collection loop of TLDRParser.parse (lines 423-431): same
exclusion list as the Beehiiv loop ("mailto:" and "#" only). -/
def tldrCollectLinks (anchors : List Anchor) : List LinkEntry :=
  (anchors.filter fun a =>
    a.href ≠ "" && !(startsWithAny a.href ["mailto:", "#"])).map
    fun a => ⟨a.href, a.text⟩

/-- Link collection loop of ConvertKitParser.parse (lines 486-494):
same exclusion list as the Beehiiv loop ("mailto:" and "#" only). -/
def convertkitCollectLinks (anchors : List Anchor) : List LinkEntry :=
  (anchors.filter fun a =>
    a.href ≠ "" && !(startsWithAny a.href ["mailto:", "#"])).map
    fun a => ⟨a.href, a.text⟩

/-- Link collection loop of GenericParser.parse (lines 531-539): same
exclusion list as the Substack loop ("mailto:", "#" and "javascript:"). -/
def genericCollectLinks (anchors : List Anchor) : List LinkEntry :=
  (anchors.filter fun a =>
    a.href ≠ "" && !(startsWithAny a.href ["mailto:", "#", "javascript:"])).map
    fun a => ⟨a.href, a.text⟩

/-- Named validation checks computed by validate_parsed_content. -/
structure ValidationChecks where
  has_content : Bool
  has_sentences : Bool
  no_excessive_whitespace : Bool
  readable_ratio : Bool
deriving DecidableEq, Repr

/-- Embedding of validate_parsed_content
(src/parsers/newsletter_parser.py, lines 552-575) applied to the
content text (the function reads the "content" key of its dict argument
with default ""). The Python float comparison
readable_chars / len(content) > 0.7 is modelled exactly as the rational
inequality 10 * readable_chars > 7 * len(content). -/
def validate_parsed_content (content : String) : Bool × ValidationChecks :=
  let checks0 : ValidationChecks :=
    { has_content := content.length > 100
      has_sentences := strContains content "." || strContains content "!" || strContains content "?"
      no_excessive_whitespace := countSubstr content "\n\n\n" < 5
      readable_ratio := true }
  let checks :=
    if content ≠ "" then
      let readable_chars := (content.toList.filter fun c => c.isAlphanum || c.isWhitespace).length
      { checks0 with readable_ratio := 10 * readable_chars > 7 * content.length }
    else checks0
  let is_valid := checks.has_content && checks.has_sentences &&
    checks.no_excessive_whitespace && checks.readable_ratio
  (is_valid, checks)

end NewsletterParser

/-! JSON values and a small executable model of Python's json library
(json.loads / json.dumps) on the fragment the summarization service
exchanges with the language model: objects, arrays, escape-free strings,
integers and the three literals. -/

/-- The left curly bracket character, kept as a named constant. -/
def lbrace : Char := Char.ofNat 123

/-- The right curly bracket character, kept as a named constant. -/
def rbrace : Char := Char.ofNat 125

/-- JSON values. -/
inductive Json where
  | null : Json
  | bool (b : Bool) : Json
  | num (n : Int) : Json
  | str (s : String) : Json
  | arr (elems : List Json) : Json
  | obj (fields : List (String × Json)) : Json
deriving Repr

/-- Whitespace skipping for the JSON reader. -/
def jsonSkipWs : List Char → List Char
  | [] => []
  | c :: cs => if c = ' ' || c = '\n' || c = '\t' || c = '\r' then jsonSkipWs cs else c :: cs

/-- Read the characters of a string literal up to the closing quote
(escape sequences are outside the modelled fragment). -/
def jsonTakeStringChars : List Char → Option (List Char × List Char)
  | [] => none
  | c :: cs =>
    if c = '"' then some ([], cs)
    else match jsonTakeStringChars cs with
      | some (s, rest) => some (c :: s, rest)
      | none => none

/-- Read a maximal run of decimal digits. -/
def jsonTakeDigits : List Char → List Char × List Char
  | [] => ([], [])
  | c :: cs =>
    if c.isDigit then
      let (ds, rest) := jsonTakeDigits cs
      (c :: ds, rest)
    else ([], c :: cs)

/-- Numeric value of a digit run. -/
def digitsToNat (ds : List Char) : Nat :=
  ds.foldl (fun n c => 10 * n + (c.toNat - 48)) 0

mutual

/-- Fuel-indexed JSON value reader. -/
def jsonParseVal : Nat → List Char → Option (Json × List Char)
  | 0, _ => none
  | fuel + 1, cs =>
    match jsonSkipWs cs with
    | '"' :: rest =>
      match jsonTakeStringChars rest with
      | some (s, r) => some (.str (String.mk s), r)
      | none => none
    | 't' :: 'r' :: 'u' :: 'e' :: r => some (.bool true, r)
    | 'f' :: 'a' :: 'l' :: 's' :: 'e' :: r => some (.bool false, r)
    | 'n' :: 'u' :: 'l' :: 'l' :: r => some (.null, r)
    | '-' :: r =>
      match jsonTakeDigits r with
      | ([], _) => none
      | (ds, rest) => some (.num (-(digitsToNat ds : Int)), rest)
    | '[' :: rest =>
      (match jsonSkipWs rest with
        | ']' :: r => some (.arr [], r)
        | rest' =>
          match jsonParseElems fuel rest' with
          | some (es, r) => some (.arr es, r)
          | none => none)
    | c :: rest =>
      if c = lbrace then
        match jsonSkipWs rest with
        | c2 :: r2 =>
          if c2 = rbrace then some (.obj [], r2)
          else
            match jsonParseMembers fuel (c2 :: r2) with
            | some (fs, r3) => some (.obj fs, r3)
            | none => none
        | [] => none
      else if c.isDigit then
        let (ds, rest') := jsonTakeDigits (c :: rest)
        some (.num (digitsToNat ds), rest')
      else none
    | [] => none

/-- Fuel-indexed reader for one-or-more array elements, consuming the
closing square bracket. -/
def jsonParseElems : Nat → List Char → Option (List Json × List Char)
  | 0, _ => none
  | fuel + 1, cs =>
    match jsonParseVal fuel cs with
    | some (j, r) =>
      (match jsonSkipWs r with
        | ',' :: r2 =>
          (match jsonParseElems fuel r2 with
            | some (es, r3) => some (j :: es, r3)
            | none => none)
        | ']' :: r2 => some ([j], r2)
        | _ => none)
    | none => none

/-- Fuel-indexed reader for one-or-more object members, consuming the
closing curly bracket. -/
def jsonParseMembers : Nat → List Char → Option (List (String × Json) × List Char)
  | 0, _ => none
  | fuel + 1, cs =>
    match jsonSkipWs cs with
    | '"' :: rest =>
      (match jsonTakeStringChars rest with
        | some (k, r) =>
          (match jsonSkipWs r with
            | ':' :: r2 =>
              (match jsonParseVal fuel r2 with
                | some (v, r3) =>
                  (match jsonSkipWs r3 with
                    | ',' :: r4 =>
                      (match jsonParseMembers fuel r4 with
                        | some (fs, r5) => some ((String.mk k, v) :: fs, r5)
                        | none => none)
                    | c5 :: r4 =>
                      if c5 = rbrace then some ([(String.mk k, v)], r4) else none
                    | [] => none)
                | none => none)
            | _ => none)
        | none => none)
    | _ => none

end

/-- Model of json.loads on the fragment above: read one value and
require only trailing whitespace after it. -/
def jsonParse (s : String) : Option Json :=
  match jsonParseVal (2 * s.length + 2) s.toList with
  | some (j, rest) => if jsonSkipWs rest = [] then some j else none
  | none => none

mutual

/-- Model of json.dumps with Python's default separators. -/
def Json.dumps : Json → String
  | .null => "null"
  | .bool true => "true"
  | .bool false => "false"
  | .num n => toString n
  | .str s => "\"" ++ s ++ "\""
  | .arr es => "[" ++ jsonDumpsElems es ++ "]"
  | .obj fs => "\x7b" ++ jsonDumpsFields fs ++ "\x7d"

/-- Comma-joined serialization of array elements. -/
def jsonDumpsElems : List Json → String
  | [] => ""
  | [j] => Json.dumps j
  | j :: rest => Json.dumps j ++ ", " ++ jsonDumpsElems rest

/-- Comma-joined serialization of object members. -/
def jsonDumpsFields : List (String × Json) → String
  | [] => ""
  | [(k, v)] => "\"" ++ k ++ "\": " ++ Json.dumps v
  | (k, v) :: rest => "\"" ++ k ++ "\": " ++ Json.dumps v ++ ", " ++ jsonDumpsFields rest

end

/-- Python dict assignment on an object's member list: replace the first
binding of the key, or append a new binding at the end. -/
def setJsonField : List (String × Json) → String → Json → List (String × Json)
  | [], k, v => [(k, v)]
  | (k', v') :: rest, k, v =>
    if k' = k then (k, v) :: rest else (k', v') :: setJsonField rest k v

/-- Dict member lookup on a JSON value (none when absent or when the
value is not an object). -/
def Json.getField : Json → String → Option Json
  | .obj fs, k => fs.lookup k
  | _, _ => none

/-- Python dict.get with a default. -/
def Json.getFieldD (j : Json) (k : String) (d : Json) : Json :=
  match j.getField k with
  | some v => v
  | none => d

/-- Dict assignment lifted to a JSON value (identity off objects). -/
def Json.setField (j : Json) (k : String) (v : Json) : Json :=
  match j with
  | .obj fs => .obj (setJsonField fs k v)
  | _ => j

/-- Read a string-valued member with a default. -/
def Json.asStrD (j : Json) (d : String) : String :=
  match j with
  | .str s => s
  | _ => d

/-- Read a bool-valued member with a default. -/
def Json.asBoolD (j : Json) (d : Bool) : Bool :=
  match j with
  | .bool b => b
  | _ => d

namespace SummarizationService

/-- Run-scoped usage accounting dict created in SummarizationService
(src/backend/summarization_service.py, lines 35-41); monetary cost is
modelled as an exact rational. The started_at field is untouched by the
claims and omitted. -/
structure SessionStats where
  total_input_tokens : Nat
  total_output_tokens : Nat
  total_cost : ℚ
  api_calls : Nat
deriving DecidableEq, Repr

/-- Token usage block of one API response. -/
structure TokenUsage where
  input_tokens : Nat
  output_tokens : Nat
deriving DecidableEq, Repr

/-- One language-model API response: its text and its usage block. -/
structure ModelResponse where
  text : String
  usage : TokenUsage
deriving Repr

/-- Cost table per 1M tokens (summarization_service.py, lines 16-20). -/
def PRICING : List (String × (ℚ × ℚ)) :=
  [("claude-sonnet-4-20250514", (3, 15)),
   ("claude-3-5-sonnet-20241022", (3, 15)),
   ("claude-3-haiku-20240307", (1/4, 5/4))]

/-- Embedding of SummarizationService._log_usage (lines 43-74): convert
the call's token counts to money via the rate table (falling back to the
first model's rates) and accumulate them into the session stats,
incrementing the call counter. -/
def log_usage (model : String) (stats : SessionStats) (usage : TokenUsage) : SessionStats :=
  let pricing := (PRICING.lookup model).getD (3, 15)
  let input_cost := (usage.input_tokens : ℚ) / 1000000 * pricing.1
  let output_cost := (usage.output_tokens : ℚ) / 1000000 * pricing.2
  let total_cost := input_cost + output_cost
  { total_input_tokens := stats.total_input_tokens + usage.input_tokens
    total_output_tokens := stats.total_output_tokens + usage.output_tokens
    total_cost := stats.total_cost + total_cost
    api_calls := stats.api_calls + 1 }

/-- Code-fence stripping applied to a model response before structural
parsing (summarize_newsletter lines 143-146, summarize_category lines
242-245): when the text contains a "```json" marker take what stands
between the first such marker and the next fence; otherwise, when it
contains any fence, take what stands between the first two fences;
otherwise leave the text alone. -/
def extractCodeBlockText (response_text : String) : String :=
  if strContains response_text "```json" then
    (pySplit ((pySplit response_text "```json").getD 1 "") "```").headD ""
  else if strContains response_text "```" then
    (pySplit ((pySplit response_text "```").getD 1 "") "```").headD ""
  else response_text

/-- Prompt of summarize_newsletter (lines 88-124), with the HTML
truncated to 50000 characters. -/
def newsletterPrompt (html_content sender_name subject : String) : String :=
  "You are reading a newsletter email. Read it like a human would and extract the key information.\n\n" ++
  "Newsletter from: " ++ sender_name ++ "\n" ++
  "Subject: " ++ subject ++ "\n\n" ++
  "Here is the newsletter HTML content:\n\n<newsletter>\n" ++
  pyTake html_content 50000 ++
  "\n</newsletter>\n\nPlease analyze this newsletter and provide:\n\n" ++
  "1. **Title**: The main title or headline of this newsletter issue\n" ++
  "2. **Summary**: A 2-3 sentence summary of what this newsletter covers\n" ++
  "3. **Key Points**: 3-5 bullet points of the most important takeaways\n" ++
  "4. **Sections**: Break down the newsletter into its main sections, each with:\n" ++
  "   - A heading\n   - A brief summary of that section (1-2 sentences)\n" ++
  "   - Any notable links or resources mentioned\n\n" ++
  "Respond in JSON format:\n\x7b\n    \"title\": \"...\",\n    \"summary\": \"...\",\n" ++
  "    \"key_points\": [\"...\", \"...\", \"...\"],\n    \"sections\": [\n        \x7b\n" ++
  "            \"heading\": \"...\",\n            \"summary\": \"...\",\n" ++
  "            \"links\": [\x7b\"text\": \"...\", \"context\": \"...\"\x7d]\n        \x7d\n    ]\n\x7d\n\n" ++
  "Focus on the actual content - ignore navigation, footers, unsubscribe links, and other boilerplate.\n" ++
  "If there are images or charts referenced, describe what they likely show based on context."

/-- Embedding of SummarizationService.summarize_newsletter (lines
76-165): send the prompt, account its usage, strip a code fence, parse
the JSON and tag it ai_generated; on a structural-parse failure return
the placeholder built from the raw response text truncated to 500
characters and tagged parse_error. A response whose parsed JSON is not
an object makes the member assignment raise, which the function does not
catch (the trailing handler re-raises); likewise any error of the API
call itself, modelled by the complete oracle returning an error. -/
def summarize_newsletter (complete : String → Except String ModelResponse) (model : String)
    (stats : SessionStats) (html_content sender_name subject : String) :
    Except String (Json × SessionStats) := do
  let prompt := newsletterPrompt html_content sender_name subject
  let response ← complete prompt
  let stats := log_usage model stats response.usage
  let response_text := response.text
  let response_text := extractCodeBlockText response_text
  match jsonParse (pyStrip response_text) with
  | some (.obj fields) => .ok (.obj (setJsonField fields "ai_generated" (.bool true)), stats)
  | some _ => .error "TypeError: cannot assign member on non-dict JSON value"
  | none =>
    .ok (.obj [("title", .str subject),
               ("summary", .str (pyTake response.text 500)),
               ("key_points", .arr []),
               ("sections", .arr []),
               ("ai_generated", .bool true),
               ("parse_error", .bool true)], stats)

/-- One entry of the newsletters argument of summarize_category: a dict
with html_content (possibly absent or empty), sender_name and subject. -/
structure CategoryNLInput where
  html_content : Option String
  sender_name : String
  subject : String
deriving Repr

/-- Per-newsletter context block built by summarize_category (lines
187-196), with the HTML truncated to 30000 characters when truthy. -/
def categoryContextEntry (i : Nat) (nl : CategoryNLInput) : String :=
  let html := if (nl.html_content.getD "") ≠ "" then pyTake (nl.html_content.getD "") 30000 else ""
  "\n--- Newsletter " ++ toString i ++ ": " ++ nl.sender_name ++ " ---\n" ++
  "Subject: " ++ nl.subject ++ "\nContent:\n" ++ html ++ "\n"

/-- Prompt of summarize_category (lines 200-226). -/
def categoryPrompt (count : Nat) (category_name combined_content : String) : String :=
  "You are reading " ++ toString count ++ " newsletters from the \"" ++ category_name ++
  "\" category. Read them all and create a unified summary.\n\n" ++
  combined_content ++
  "\n\nCreate a combined summary that:\n" ++
  "1. Synthesizes the key themes and stories across all newsletters\n" ++
  "2. Highlights the most important news/insights\n" ++
  "3. Notes any overlapping coverage or different perspectives on the same topic\n" ++
  "4. Calls out the source newsletter for key points\n\n" ++
  "Respond in JSON format:\n\x7b\n    \"summary\": \"2-3 paragraph summary of the category's key content\",\n" ++
  "    \"key_points\": [\n        \"Key point 1 (Source: Newsletter Name)\",\n" ++
  "        \"Key point 2 (Source: Newsletter Name)\",\n        ...\n    ],\n" ++
  "    \"newsletters\": [\n        \x7b\n            \"sender_name\": \"...\",\n" ++
  "            \"one_liner\": \"One sentence summary of this newsletter's unique contribution\"\n" ++
  "        \x7d\n    ]\n\x7d\n\nFocus on substance - ignore ads, promotions, and boilerplate."

/-- Embedding of SummarizationService.summarize_category (lines
167-263). An empty input list short-circuits to the fixed
empty-category result before any prompt is built or any API call made;
otherwise the combined prompt is sent, usage logged, the response
fence-stripped and JSON-parsed (placeholder from the raw text truncated
to 1000 characters on a structural-parse failure). -/
def summarize_category (complete : String → Except String ModelResponse) (model : String)
    (stats : SessionStats) (newsletters : List CategoryNLInput) (category_name : String) :
    Except String (Json × SessionStats) :=
  if newsletters.isEmpty then
    .ok (.obj [("summary", .str "No newsletters in this category."),
               ("key_points", .arr []),
               ("newsletters", .arr []),
               ("ai_generated", .bool true)], stats)
  else do
    let newsletter_context := (newsletters.enumFrom 1).map fun p => categoryContextEntry p.1 p.2
    let combined_content := String.intercalate "\n" newsletter_context
    let prompt := categoryPrompt newsletters.length category_name combined_content
    let response ← complete prompt
    let stats := log_usage model stats response.usage
    let response_text := extractCodeBlockText response.text
    match jsonParse (pyStrip response_text) with
    | some (.obj fields) =>
      let fields := setJsonField fields "ai_generated" (.bool true)
      let fields := setJsonField fields "newsletter_count" (.num newsletters.length)
      .ok (.obj fields, stats)
    | some _ => .error "TypeError: cannot assign member on non-dict JSON value"
    | none =>
      .ok (.obj [("summary", .str (pyTake response.text 1000)),
                 ("key_points", .arr []),
                 ("newsletters", .arr []),
                 ("ai_generated", .bool true),
                 ("parse_error", .bool true)], stats)

/-- Names of the methods the SummarizationService class defines
(src/backend/summarization_service.py, class body lines 23-375). -/
def serviceMethodNames : List String :=
  ["__init__", "_log_usage", "summarize_newsletter", "summarize_category",
   "summarize_multiple", "generate_daily_briefing"]

end SummarizationService

namespace NewsletterService

open NewsletterParser

/-- Default owner sentinel (src/backend/database.py, line 11). -/
def DEFAULT_OWNER_EMAIL : String := "default@local"

/-- Embedding of normalize_owner_email
(src/backend/newsletter_service.py, lines 37-40): strip and lower-case
the given identity, substituting the default sentinel when the result
(or the input) is empty. -/
def normalize_owner_email (owner_email : Option String) : String :=
  let candidate := pyLower (pyStrip (owner_email.getD ""))
  if candidate = "" then DEFAULT_OWNER_EMAIL else candidate

/-- One row of the newsletters table (src/backend/database.py, lines
14-46). The autoincrement primary key is carried as a plain number;
received_at is a UTC instant; the JSON-valued columns hold the dumped
strings exactly as the service writes them. -/
structure NewsletterRow where
  id : Nat
  message_id : String
  owner_email : String
  sender_name : String
  sender_email : String
  subject : String
  date : String
  received_at : Int
  platform : String
  category : String
  raw_html : Option String
  parsed_content : String
  title : String
  sections : String
  links : String
  images : String
  extra_metadata : String
  parsing_success : Bool
  needs_review : Bool
deriving DecidableEq, Repr

/-- Extraction statistics dict of extract_newsletters (lines 129-135);
by_category is an insertion-ordered association list. -/
structure ExtractionStats where
  total_fetched : Nat
  already_exists : Nat
  newly_parsed : Nat
  parse_errors : Nat
  by_category : List (String × Nat)
deriving DecidableEq, Repr

/-- Category counter update of extract_newsletters (lines 217-220):
insert the category with count 0 when absent, then increment it. -/
def bumpCategory : List (String × Nat) → String → List (String × Nat)
  | [], cat => [(cat, 1)]
  | (c, n) :: rest, cat =>
    if c = cat then (c, n + 1) :: rest else (c, n) :: bumpCategory rest cat

/-- A raw Gmail API message as fetched with format=full; its payload is
opaque to the service, which hands it to the parser. -/
structure RawGmailMessage where
  id : String
  payload : Json
deriving Repr

/-- The dict returned by NewsletterParser.parse_gmail_message
(src/parsers/newsletter_parser.py, lines 103-119 on success and lines
223-239 via _create_error_result on failure). Both branches return
exactly these fifteen keys; in particular neither branch includes a
raw_html key. The content-bearing fields produced by the BeautifulSoup
strategies are carried abstractly. -/
structure ParsedMessage where
  message_id : String
  sender_name : String
  sender_email : String
  subject : String
  date : String
  platform : String
  category : String
  content : String
  title : String
  sections : Json
  links : Json
  images : Json
  metadata : Json
  parsing_success : Bool
  needs_review : Bool
deriving Repr

/-- Python dict item lookup on the parse_gmail_message result: the
fifteen keys the parser writes map to their values, every other key is
absent. -/
def ParsedMessage.get (p : ParsedMessage) : String → Option Json
  | "message_id" => some (.str p.message_id)
  | "sender_name" => some (.str p.sender_name)
  | "sender_email" => some (.str p.sender_email)
  | "subject" => some (.str p.subject)
  | "date" => some (.str p.date)
  | "platform" => some (.str p.platform)
  | "category" => some (.str p.category)
  | "content" => some (.str p.content)
  | "title" => some (.str p.title)
  | "sections" => some p.sections
  | "links" => some p.links
  | "images" => some p.images
  | "metadata" => some p.metadata
  | "parsing_success" => some (.bool p.parsing_success)
  | "needs_review" => some (.bool p.needs_review)
  | _ => none

/-- Python dict subscript on the parse_gmail_message result: a missing
key raises KeyError. -/
def ParsedMessage.getKey (p : ParsedMessage) (k : String) : Except String Json :=
  match p.get k with
  | some v => .ok v
  | none => .error ("KeyError: '" ++ k ++ "'")

/-- Embedding of the received_at resolution block of extract_newsletters
(src/backend/newsletter_service.py, lines 174-187). parseDate models
email.utils.parsedate_to_datetime followed by the conversion to UTC;
none models a raised exception. clock models datetime.utcnow(); each
call consumes one tick, so the value sampled on the fallback path is the
one current at this point of the per-message loop. -/
def resolveReceivedAt (parseDate : String → Option Int) (clock : Nat → Int)
    (tick : Nat) (date : String) : Int × Nat :=
  if date ≠ "" then
    match parseDate date with
    | some t => (t, tick)
    | none => (clock tick, tick + 1)
  else (clock tick, tick + 1)

/-- Embedding of the Newsletter(...) constructor call of
extract_newsletters (lines 190-209): the keyword arguments are evaluated
left to right, each dict subscript on the parsed result possibly raising
KeyError; the primary key is assigned by the store on insert and is left
at 0 here. -/
def buildNewsletterRow (scoped_message_id owner_email : String)
    (p : ParsedMessage) (received_at : Int) : Except String NewsletterRow := do
  let sender_name ← p.getKey "sender_name"
  let sender_email ← p.getKey "sender_email"
  let subject ← p.getKey "subject"
  let date ← p.getKey "date"
  let platform ← p.getKey "platform"
  let category ← p.getKey "category"
  let raw_html ← p.getKey "raw_html"
  let parsed_content ← p.getKey "content"
  let title ← p.getKey "title"
  let sections ← p.getKey "sections"
  let links ← p.getKey "links"
  let images ← p.getKey "images"
  let extra_metadata ← p.getKey "metadata"
  let parsing_success ← p.getKey "parsing_success"
  let needs_review ← p.getKey "needs_review"
  .ok { id := 0
        message_id := scoped_message_id
        owner_email := owner_email
        sender_name := sender_name.asStrD ""
        sender_email := sender_email.asStrD ""
        subject := subject.asStrD ""
        date := date.asStrD ""
        received_at := received_at
        platform := platform.asStrD ""
        category := category.asStrD ""
        raw_html := some (raw_html.asStrD "")
        parsed_content := parsed_content.asStrD ""
        title := title.asStrD ""
        sections := sections.dumps
        links := links.dumps
        images := images.dumps
        extra_metadata := extra_metadata.dumps
        parsing_success := parsing_success.asBoolD true
        needs_review := needs_review.asBoolD false }

/-- External collaborators of one extract_newsletters run: the listed
candidate message ids, the per-id full fetch (which can raise), the
parser (total: it catches its own errors and returns the error-result
dict), the date-header parser and the wall clock. -/
structure GmailIngestEnv where
  messages : List String
  getMessage : String → Except String RawGmailMessage
  parseMessage : RawGmailMessage → ParsedMessage
  parseDate : String → Option Int
  clock : Nat → Int

/-- Embedding of the per-message loop body of extract_newsletters
(src/backend/newsletter_service.py, lines 148-225). The whole body sits
in a try block whose handler increments parse_errors and continues, so
any .error outcome (failed fetch, or the KeyError raised while building
the row) is converted into that increment; a row whose exact scoped id
is already present only increments already_exists. -/
def processGmailMessage (env : GmailIngestEnv) (owner_email : String)
    (st : List NewsletterRow × ExtractionStats × Nat) (message_id : String) :
    List NewsletterRow × ExtractionStats × Nat :=
  let (db, stats, tick) := st
  let scoped_message_id := owner_email ++ "::" ++ message_id
  match db.find? (fun r => r.message_id == scoped_message_id) with
  | some _ => (db, { stats with already_exists := stats.already_exists + 1 }, tick)
  | none =>
    match env.getMessage message_id with
    | .error _ => (db, { stats with parse_errors := stats.parse_errors + 1 }, tick)
    | .ok msg =>
      let parsed := env.parseMessage msg
      let _validation := NewsletterParser.validate_parsed_content parsed.content
      let rr := resolveReceivedAt env.parseDate env.clock tick parsed.date
      match buildNewsletterRow scoped_message_id owner_email parsed rr.1 with
      | .ok row =>
        let stats := { stats with newly_parsed := stats.newly_parsed + 1,
                                  by_category := bumpCategory stats.by_category parsed.category }
        (db ++ [row], stats, rr.2)
      | .error _ => (db, { stats with parse_errors := stats.parse_errors + 1 }, rr.2)

/-- Embedding of NewsletterService.extract_newsletters
(src/backend/newsletter_service.py, lines 93-227) from the point where
the candidate list has been obtained: normalize the owner, then run the
per-message loop over all candidates, returning the store contents and
the statistics dict. -/
def extract_newsletters (env : GmailIngestEnv) (db : List NewsletterRow)
    (owner_email : Option String) : List NewsletterRow × ExtractionStats :=
  let owner := normalize_owner_email owner_email
  let stats0 : ExtractionStats :=
    { total_fetched := env.messages.length
      already_exists := 0
      newly_parsed := 0
      parse_errors := 0
      by_category := [] }
  let result := env.messages.foldl (processGmailMessage env owner) (db, stats0, 0)
  (result.1, result.2.1)

/-- Embedding of NewsletterService.cleanup_old_newsletters (lines
288-300): delete every row whose received_at precedes now minus the
retention window and return the deleted count together with the
remaining store. -/
def cleanup_old_newsletters (db : List NewsletterRow) (now : Int)
    (retention_days : Nat) : Nat × List NewsletterRow :=
  let cutoff := now - (retention_days : Int) * 86400
  let deleted := db.filter fun r => decide (r.received_at < cutoff)
  let remaining := db.filter fun r => !decide (r.received_at < cutoff)
  (deleted.length, remaining)

end NewsletterService

namespace DailyAiSummary

open NewsletterService

/-- Category display-name table of get_daily_ai_summary
(src/backend/main.py, lines 444-449). -/
def categoryDisplayNames : List (String × String) :=
  [("product_ai", "Product & AI"), ("health_fitness", "Health & Fitness"),
   ("finance", "Finance"), ("sahil_bloom", "Sahil Bloom")]

/-- Python str.title(): upper-case a letter that does not follow a
letter, lower-case one that does. -/
def pythonTitle (s : String) : String :=
  let step := s.toList.foldl
    (fun (acc : List Char × Bool) c =>
      if c.isAlpha then
        (acc.1 ++ [if acc.2 then c.toLower else c.toUpper], true)
      else (acc.1 ++ [c], false))
    ([], false)
  String.mk step.1

/-- Display-name resolution of the category loop (main.py, line 463):
table lookup with a titled fallback. -/
def displayNameFor (cat : String) : String :=
  ((categoryDisplayNames.lookup cat).getD (pythonTitle (pyReplace cat "_" " ")))

/-- Insertion-ordered grouping step: append the row to its category's
bucket, creating the bucket at the end when absent. -/
def addToGroup (groups : List (String × List NewsletterRow)) (cat : String)
    (nl : NewsletterRow) : List (String × List NewsletterRow) :=
  match groups with
  | [] => [(cat, [nl])]
  | (c, nls) :: rest =>
    if c = cat then (c, nls ++ [nl]) :: rest else (c, nls) :: addToGroup rest cat nl

/-- Category grouping of get_daily_ai_summary (main.py, lines 452-457):
a falsy category becomes "uncategorized"; groups keep first-seen order. -/
def groupNewslettersByCategory (newsletters : List NewsletterRow) :
    List (String × List NewsletterRow) :=
  newsletters.foldl
    (fun groups nl =>
      let cat := if nl.category = "" then "uncategorized" else nl.category
      addToGroup groups cat nl)
    []

/-- The per-category failure dict appended by the stage-1 inner handler
(main.py, lines 494-501). -/
def failedNewsletterSummary (nl : NewsletterRow) (e : String) : Json :=
  .obj [("id", .num nl.id), ("sender_name", .str nl.sender_name),
        ("title", .str nl.subject), ("summary", .str "Failed to generate summary"),
        ("error", .str e)]

/-- Attribute access service.create_category_rollup(...) (main.py, line
507): the call succeeds with the oracle's result when the service class
defines a method of that name, and raises AttributeError otherwise. -/
def create_category_rollup_call (rollup : List Json → String → Json)
    (summaries : List Json) (display_name : String) : Except String Json :=
  if "create_category_rollup" ∈ SummarizationService.serviceMethodNames then
    .ok (rollup summaries display_name)
  else
    .error "'SummarizationService' object has no attribute 'create_category_rollup'"

/-- One value of the categories map returned by get_daily_ai_summary
(main.py, lines 524-531). summary, key_points and ai_generated are
dict.get projections of the category summary with the source defaults. -/
structure CategoryEntry where
  display_name : String
  newsletter_count : Nat
  summary : Json
  key_points : Json
  newsletters : List Json
  ai_generated : Json
deriving Repr

/-- Embedding of one iteration of the category loop of
get_daily_ai_summary (src/backend/main.py, lines 461-531). Stage 1
summarizes each newsletter having truthy raw HTML (its own handler turns
a per-newsletter failure into the failure dict, so stage 1 never
raises); stage 2 calls the absent create_category_rollup method when
stage 1 produced anything, else substitutes the fixed no-content dict.
The surrounding handler turns a stage-2 exception into the
failure-placeholder category summary and resets the stage-1 list to
empty. The inter-call sleeps have no effect on the data and are not
modelled. summarize abstracts service.summarize_newsletter with its
client and accounting. -/
def processCategory (summarize : NewsletterRow → Except String Json)
    (rollup : List Json → String → Json)
    (display_name : String) (cat_newsletters : List NewsletterRow) : CategoryEntry :=
  let individual_summaries :=
    (cat_newsletters.filter fun nl => !(nl.raw_html.getD "" == "")).map fun nl =>
      match summarize nl with
      | .ok s => (s.setField "id" (.num nl.id)).setField "sender_name" (.str nl.sender_name)
      | .error e => failedNewsletterSummary nl e
  let step2 : Except String Json :=
    if !individual_summaries.isEmpty then
      create_category_rollup_call rollup individual_summaries display_name
    else
      .ok (.obj [("summary", .str "No content available for summarization."),
                 ("key_points", .arr []),
                 ("ai_generated", .bool false)])
  match step2 with
  | .ok category_summary =>
    { display_name := display_name
      newsletter_count := cat_newsletters.length
      summary := category_summary.getFieldD "summary" (.str "")
      key_points := category_summary.getFieldD "key_points" (.arr [])
      newsletters := individual_summaries
      ai_generated := category_summary.getFieldD "ai_generated" (.bool true) }
  | .error e =>
    let category_summary : Json :=
      .obj [("summary", .str ("Failed to generate AI summary: " ++ e)),
            ("key_points", .arr []),
            ("error", .bool true)]
    { display_name := display_name
      newsletter_count := cat_newsletters.length
      summary := category_summary.getFieldD "summary" (.str "")
      key_points := category_summary.getFieldD "key_points" (.arr [])
      newsletters := []
      ai_generated := category_summary.getFieldD "ai_generated" (.bool true) }

/-- Embedding of the categories map built by get_daily_ai_summary over
the day's newsletters (main.py, lines 452-531). -/
def buildCategoriesMap (summarize : NewsletterRow → Except String Json)
    (rollup : List Json → String → Json) (newsletters : List NewsletterRow) :
    List (String × CategoryEntry) :=
  (groupNewslettersByCategory newsletters).map fun g =>
    (g.1, processCategory summarize rollup (displayNameFor g.1) g.2)

end DailyAiSummary

/-! Auxiliary definitions used by the claim statements and proofs:
an occurrence tester for the split lemmas, a rule-list reading of the
detection order, and concrete sample inputs. -/

/-- Occurrence of a non-empty pattern as a contiguous run: the pattern
is a prefix of some suffix. -/
def hasInfix (sep : List Char) : List Char → Bool
  | [] => false
  | c :: cs => sep.isPrefixOf (c :: cs) || hasInfix sep cs

/-- The three-character code-fence delimiter as a character list. -/
def fenceChars : List Char := [Char.ofNat 96, Char.ofNat 96, Char.ofNat 96]

/-- The seven-character json code-fence marker as a character list. -/
def fenceJsonChars : List Char :=
  [Char.ofNat 96, Char.ofNat 96, Char.ofNat 96, 'j', 's', 'o', 'n']

namespace NewsletterParser

/-- The detection rule list of _detect_platform, read off the source in
clause order: each entry pairs the clause's condition on the lowered
sender address and lowered HTML with the tag it returns. -/
def platformChecks (email_lower html_lower : String) : List (Bool × String) :=
  [(strContains email_lower "substack.com", "substack"),
   (strContains email_lower "beehiiv.com" || strContains html_lower "beehiiv", "beehiiv"),
   (strContains html_lower "convertkit" || strContains email_lower "kit-mail", "convertkit"),
   (strContains email_lower "tldrnewsletter.com" || strContains email_lower "tldr", "tldr"),
   (strContains email_lower "stratechery.com", "stratechery")]

/-- First-match-wins reading of a rule list: the tag of the first rule
whose condition holds, defaulting to "generic". -/
def firstMatchTag : List (Bool × String) → String
  | [] => "generic"
  | (matched, tag) :: rest => if matched then tag else firstMatchTag rest

end NewsletterParser

namespace Samples

open NewsletterService

/-- A concrete well-formed parse result (all fifteen keys populated, as
the parser's success branch would). -/
def parsedOk : ParsedMessage :=
  { message_id := "m1"
    sender_name := "Ben Thompson"
    sender_email := "news@stratechery.com"
    subject := "Weekly Article"
    date := "Tue, 01 Oct 2024 12:00:00 +0000"
    platform := "stratechery"
    category := "product_ai"
    content := "A fine article. It has sentences!"
    title := "Weekly Article"
    sections := .arr []
    links := .arr []
    images := .arr []
    metadata := .obj []
    parsing_success := true
    needs_review := false }

/-- A concrete parse result whose date header is unparsable. -/
def parsedBadDate : ParsedMessage :=
  { parsedOk with date := "not-a-real-date" }

/-- A concrete single-message ingestion environment in which every
external step succeeds: the fetch returns a message, the parser returns
the well-formed result and the date header parses. -/
def ingestEnvOk : GmailIngestEnv :=
  { messages := ["m1"]
    getMessage := fun mid => .ok ⟨mid, .obj []⟩
    parseMessage := fun _ => parsedOk
    parseDate := fun _ => some 1727784000
    clock := fun i => 1700000000 + (i : Int) }

/-- A concrete two-message ingestion environment whose date headers do
not parse, with a clock that returns a different instant on every
reading. -/
def ingestEnvBadDates : GmailIngestEnv :=
  { messages := ["m1", "m2"]
    getMessage := fun mid => .ok ⟨mid, .obj []⟩
    parseMessage := fun _ => parsedBadDate
    parseDate := fun _ => none
    clock := fun i => 1700000000 + (i : Int) }

/-- A stored newsletter row that carries raw HTML. -/
def rowWithHtml : NewsletterRow :=
  { id := 1
    message_id := "u::a"
    owner_email := "u"
    sender_name := "Chartr"
    sender_email := "x@chartr.co"
    subject := "Charts of the week"
    date := "Tue, 01 Oct 2024 12:00:00 +0000"
    received_at := 1727784000
    platform := "generic"
    category := "finance"
    raw_html := some "<p>x</p>"
    parsed_content := "x"
    title := "Charts"
    sections := "[]"
    links := "[]"
    images := "[]"
    extra_metadata := "\x7b\x7d"
    parsing_success := true
    needs_review := false }

/-- A stored newsletter row with no raw HTML, in a different category. -/
def rowNoHtml : NewsletterRow :=
  { rowWithHtml with
    id := 2
    message_id := "u::b"
    sender_name := "Lenny"
    sender_email := "l@x.com"
    subject := "Growth"
    category := "product_ai"
    raw_html := none }

/-- A stage-1 summarizer oracle that always succeeds. -/
def summarizeOracleOk : NewsletterRow → Except String Json :=
  fun _ => .ok (.obj [("title", .str "T"), ("summary", .str "S")])

/-- A category-rollup oracle (its value is irrelevant: the method the
endpoint calls does not exist, so the oracle is never consulted). -/
def rollupOracle : List Json → String → Json :=
  fun _ _ => .obj [("summary", .str "R")]

end Samples

/-! Helper lemmas about the split model and list bookkeeping. -/

/-- The split worker does not depend on the fuel once the fuel covers
the input's length. -/
theorem listSplitOnF_fuel (sep : List Char) :
    ∀ (fuel₁ fuel₂ : Nat) (cs : List Char), cs.length ≤ fuel₁ → cs.length ≤ fuel₂ →
      listSplitOnF sep fuel₁ cs = listSplitOnF sep fuel₂ cs := by
  intro fuel₁
  induction fuel₁ with
  | zero =>
    intro fuel₂ cs h1 _
    have : cs = [] := by
      cases cs with
      | nil => rfl
      | cons c cs => simp at h1
    subst this
    cases fuel₂ <;> rfl
  | succ f ih =>
    intro fuel₂ cs h1 h2
    cases cs with
    | nil => cases fuel₂ <;> rfl
    | cons c cs =>
      cases fuel₂ with
      | zero => simp at h2
      | succ g =>
        simp only [listSplitOnF]
        by_cases hp : sep.isPrefixOf (c :: cs)
        · rw [if_pos hp, if_pos hp,
            ih g (List.drop (sep.length - 1) cs) (by simp at h1 ⊢; omega)
              (by simp at h2 ⊢; omega)]
        · rw [if_neg hp, if_neg hp, ih g cs (by simp at h1; omega) (by simp at h2; omega)]

/-- The empty-input equation of the split. -/
theorem listSplitOn_nil (sep : List Char) : listSplitOn sep [] = [[]] := rfl

/-- The scanning equation of the split: cut when the separator starts
here (resuming after it), otherwise prepend the character to the first
part of the tail's split. -/
theorem listSplitOn_cons (sep : List Char) (c : Char) (cs : List Char) :
    listSplitOn sep (c :: cs) =
      if sep.isPrefixOf (c :: cs) then
        [] :: listSplitOn sep (List.drop (sep.length - 1) cs)
      else
        match listSplitOn sep cs with
        | [] => [[c]]
        | p :: ps => (c :: p) :: ps := by
  show listSplitOnF sep (c :: cs).length (c :: cs) = _
  simp only [List.length_cons, listSplitOnF]
  by_cases hp : sep.isPrefixOf (c :: cs)
  · rw [if_pos hp, if_pos hp]
    rw [listSplitOnF_fuel sep cs.length (List.drop (sep.length - 1) cs).length
      (List.drop (sep.length - 1) cs) (by simp) (by simp)]
    rfl
  · rw [if_neg hp, if_neg hp]
    rfl

/-- Splitting never returns an empty part list. -/
theorem listSplitOn_ne_nil (sep : List Char) (xs : List Char) :
    listSplitOn sep xs ≠ [] := by
  cases xs with
  | nil => simp [listSplitOn_nil]
  | cons c cs =>
    rw [listSplitOn_cons]
    split
    · simp
    · cases h : listSplitOn sep cs <;> simp

/-- Splitting on a single character yields at least two parts exactly
when that character occurs. -/
theorem listSplitOn_singleton_two_le (c : Char) (xs : List Char) :
    2 ≤ (listSplitOn [c] xs).length ↔ c ∈ xs := by
  induction xs with
  | nil => rw [listSplitOn_nil]; simp
  | cons x xs ih =>
    rw [listSplitOn_cons]
    by_cases hx : c = x
    · subst hx
      simp only [List.isPrefixOf, beq_self_eq_true, Bool.and_eq_true, List.isPrefixOf_nil_left,
        and_true, if_true]
      have h1 : listSplitOn [c] (List.drop ([c].length - 1) xs) ≠ [] := listSplitOn_ne_nil _ _
      constructor
      · intro _; exact List.mem_cons_self _ _
      · intro _
        have : 1 ≤ (listSplitOn [c] (List.drop ([c].length - 1) xs)).length :=
          Nat.one_le_iff_ne_zero.mpr (by simpa [List.length_eq_zero] using h1)
        simpa using this
    · have hpre : ([c].isPrefixOf (x :: xs)) = false := by
        simp [List.isPrefixOf, hx]
      rw [hpre]
      simp only [Bool.false_eq_true, if_false]
      cases h : listSplitOn [c] xs with
      | nil => exact absurd h (listSplitOn_ne_nil _ _)
      | cons p ps =>
        have hlen : 2 ≤ (listSplitOn [c] xs).length ↔ c ∈ xs := ih
        rw [h] at hlen
        simpa [List.mem_cons, hx] using hlen

/-- Substring test against a one-character pattern is a character
membership test. -/
theorem strContains_single (s : String) (c : Char) (pat : String)
    (hp : pat.toList = [c]) : strContains s pat = s.toList.any (fun x => x == c) := by
  replace hp : pat.data = [c] := hp
  by_cases h : c ∈ s.toList
  · have h1 : strContains s pat = true := by
      simpa [strContains, pySplit, hp] using (listSplitOn_singleton_two_le c s.toList).mpr h
    rw [h1]
    exact (List.any_eq_true.mpr ⟨c, h, by simp⟩).symm
  · have h1 : strContains s pat = false := by
      simp only [strContains, pySplit, String.toList, hp, List.length_map]
      simpa using fun hc => h ((listSplitOn_singleton_two_le c s.toList).mp hc)
    rw [h1]
    symm
    simp only [List.any_eq_false]
    intro x hx
    simp only [beq_iff_eq]
    intro he; exact h (he ▸ hx)

/-- A filter and its complementary filter partition a list's length. -/
theorem length_filter_partition {α : Type} (p : α → Bool) (l : List α) :
    (l.filter p).length + (l.filter fun a => !p a).length = l.length := by
  induction l with
  | nil => rfl
  | cons a l ih =>
    cases h : p a
    · simp only [List.filter_cons, h, Bool.not_false, if_true, Bool.false_eq_true, if_false,
        List.length_cons]
      omega
    · simp only [List.filter_cons, h, Bool.not_true, if_true, Bool.false_eq_true, if_false,
        List.length_cons]
      omega

/-- Claim C7: a category rollup invoked with an empty newsletter list
short-circuits to the fixed empty-category summary ("No newsletters in
this category." with empty key_points and newsletters lists) and the
language model is not invoked: the returned session stats are exactly
the input stats, so the api_calls counter and the accumulated token and
cost totals are unchanged. -/
theorem C7_summarize_category_empty_short_circuit
    (complete : String → Except String SummarizationService.ModelResponse)
    (model : String) (stats : SummarizationService.SessionStats) (category_name : String) :
    SummarizationService.summarize_category complete model stats [] category_name =
      .ok (.obj [("summary", .str "No newsletters in this category."),
                 ("key_points", .arr []),
                 ("newsletters", .arr []),
                 ("ai_generated", .bool true)], stats) := rfl

/-- Claim C9: the retention sweep deletes exactly the rows whose
received_at precedes now minus the retention window (the deleted count
and the surviving rows partition the store, and a row survives exactly
when it is not older than the cutoff), and it is idempotent: a second
sweep at the same instant with no intervening ingestion deletes nothing
and returns 0. -/
theorem C9_cleanup_old_newsletters_exact_and_idempotent
    (db : List NewsletterService.NewsletterRow) (now : Int) (retention_days : Nat) :
    ((NewsletterService.cleanup_old_newsletters db now retention_days).1 +
      ((NewsletterService.cleanup_old_newsletters db now retention_days).2).length = db.length)
    ∧ (∀ r, r ∈ (NewsletterService.cleanup_old_newsletters db now retention_days).2 ↔
        r ∈ db ∧ ¬ (r.received_at < now - (retention_days : Int) * 86400))
    ∧ NewsletterService.cleanup_old_newsletters
        (NewsletterService.cleanup_old_newsletters db now retention_days).2 now retention_days =
      (0, (NewsletterService.cleanup_old_newsletters db now retention_days).2) := by
  refine ⟨?_, ?_, ?_⟩
  · simpa [NewsletterService.cleanup_old_newsletters] using
      length_filter_partition (fun r : NewsletterService.NewsletterRow =>
        decide (r.received_at < now - (retention_days : Int) * 86400)) db
  · intro r
    simp [NewsletterService.cleanup_old_newsletters, List.mem_filter]
  · simp only [NewsletterService.cleanup_old_newsletters, List.filter_filter]
    rw [Prod.mk.injEq]
    constructor
    · simp [Bool.and_not_self]
    · simp [Bool.and_self]

/-- Claim C10: the content validator returns the four named boolean
checks - length above the 100-character minimum, presence of
sentence-ending punctuation, fewer than five triple-newline runs, and a
readable-character ratio above 0.7 that defaults to true on empty
content - and its validity verdict is the conjunction of exactly those
four checks. -/
theorem C10_validate_parsed_content_contract (content : String) :
    ((NewsletterParser.validate_parsed_content content).2.has_content
        = decide (100 < content.length))
    ∧ ((NewsletterParser.validate_parsed_content content).2.has_sentences
        = (content.toList.any fun c => c == '.' || c == '!' || c == '?'))
    ∧ ((NewsletterParser.validate_parsed_content content).2.no_excessive_whitespace
        = decide (countSubstr content "\n\n\n" < 5))
    ∧ ((NewsletterParser.validate_parsed_content content).2.readable_ratio
        = (decide (content = "") ||
           decide (7 * content.length <
             10 * (content.toList.countP fun c => c.isAlphanum || c.isWhitespace))))
    ∧ ((NewsletterParser.validate_parsed_content content).1
        = ((NewsletterParser.validate_parsed_content content).2.has_content &&
           (NewsletterParser.validate_parsed_content content).2.has_sentences &&
           (NewsletterParser.validate_parsed_content content).2.no_excessive_whitespace &&
           (NewsletterParser.validate_parsed_content content).2.readable_ratio)) := by
  have hdot := strContains_single content '.' "." rfl
  have hbang := strContains_single content '!' "!" rfl
  have hq := strContains_single content '?' "?" rfl
  by_cases hc : content = ""
  · subst hc
    refine ⟨rfl, by decide, rfl, rfl, rfl⟩
  · refine ⟨?_, ?_, ?_, ?_, ?_⟩
    · simp [NewsletterParser.validate_parsed_content, hc]
    · have h2 : (NewsletterParser.validate_parsed_content content).2.has_sentences =
          (strContains content "." || strContains content "!" || strContains content "?") := by
        simp [NewsletterParser.validate_parsed_content, hc]
      rw [h2, hdot, hbang, hq, Bool.eq_iff_iff]
      simp only [Bool.or_eq_true, List.any_eq_true, beq_iff_eq]
      constructor
      · rintro ((⟨x, hx, h⟩ | ⟨x, hx, h⟩) | ⟨x, hx, h⟩) <;> exact ⟨x, hx, by simp [h]⟩
      · rintro ⟨x, hx, (h | h) | h⟩
        · exact Or.inl (Or.inl ⟨x, hx, h⟩)
        · exact Or.inl (Or.inr ⟨x, hx, h⟩)
        · exact Or.inr ⟨x, hx, h⟩
    · simp [NewsletterParser.validate_parsed_content, hc]
    · have h4 : (NewsletterParser.validate_parsed_content content).2.readable_ratio =
          decide (7 * content.length <
            10 * (content.toList.filter fun c => c.isAlphanum || c.isWhitespace).length) := by
        simp [NewsletterParser.validate_parsed_content, hc]
      rw [h4]
      simp [List.countP_eq_length_filter, hc]
    · simp [NewsletterParser.validate_parsed_content, hc]

/-- Claim C2, counterexample: a sender at the explicit stratechery.com
domain whose HTML happens to contain the beehiiv content signature is
detected as "beehiiv", not "stratechery" - the content-signature clause
for beehiiv sits before the stratechery sender-domain clause, so
sender-domain substrings do not take precedence over content
signatures. -/
theorem C2_counterexample_domain_not_precedent :
    NewsletterParser.detect_platform "news@stratechery.com" "<p>beehiiv</p>" = "beehiiv"
    ∧ strContains (pyLower "news@stratechery.com") "stratechery.com" = true
    ∧ ("beehiiv" : String) ≠ "stratechery" := by
  refine ⟨by decide, by decide, by decide⟩

/-- Claim C2 as amended: detection is total and priority-ordered with
first match winning over the source's fixed clause list - substack.com
(sender), then beehiiv.com (sender) or "beehiiv" (HTML), then
"convertkit" (HTML) or kit-mail (sender), then tldrnewsletter.com or
"tldr" (sender), then stratechery.com (sender) - the result is always
one of the six tags, and an input matching no clause yields "generic"
rather than an error. (The original claim's blanket precedence of
sender-domain clauses over content-signature clauses does not hold:
clauses are interleaved in the fixed order above.) -/
theorem C2_detect_platform_total_first_match (sender_email html_content : String) :
    (NewsletterParser.detect_platform sender_email html_content =
      NewsletterParser.firstMatchTag
        (NewsletterParser.platformChecks (pyLower sender_email) (pyLower html_content)))
    ∧ (NewsletterParser.detect_platform sender_email html_content ∈
        (["substack", "beehiiv", "convertkit", "tldr", "stratechery", "generic"] : List String))
    ∧ ((NewsletterParser.platformChecks (pyLower sender_email) (pyLower html_content)).all
          (fun r => !r.1) = true →
        NewsletterParser.detect_platform sender_email html_content = "generic") := by
  refine ⟨rfl, ?_, ?_⟩
  · unfold NewsletterParser.detect_platform
    dsimp only
    split_ifs <;> simp
  · intro h
    simp only [NewsletterParser.platformChecks, List.all_cons, List.all_nil,
      Bool.and_eq_true, Bool.not_eq_eq_eq_not, Bool.not_true] at h
    obtain ⟨h1, h2, h3, h4, h5, -⟩ := h
    simp only [NewsletterParser.detect_platform, h1, h2, h3, h4, h5,
      Bool.false_eq_true, if_false]

/-- Claim C2 witness: a sender and body matching no clause land on the
"generic" tag, by the amended theorem. -/
theorem C2_witness_generic :
    NewsletterParser.detect_platform "someone@gmail.com" "<p>hello</p>" = "generic" :=
  (C2_detect_platform_total_first_match "someone@gmail.com" "<p>hello</p>").2.2 (by decide)

/-- Every entry a link-collection loop keeps comes from an anchor of the
input with a non-empty href that does not start with any excluded
target. -/
theorem collectLinks_all_props (anchors : List NewsletterParser.Anchor)
    (excl : List String) :
    (((anchors.filter fun a => a.href ≠ "" && !(startsWithAny a.href excl)).map
        fun a => (⟨a.href, a.text⟩ : NewsletterParser.LinkEntry)).all fun l =>
      !(l.url == "") && !(startsWithAny l.url excl) &&
        anchors.any fun a => a.href == l.url && a.text == l.text) = true := by
  rw [List.all_eq_true]
  intro l hl
  simp only [List.mem_map, List.mem_filter] at hl
  obtain ⟨a, ⟨hmem, hcond⟩, rfl⟩ := hl
  rw [Bool.and_eq_true] at hcond
  obtain ⟨h1, h2⟩ := hcond
  simp only [Bool.and_eq_true, Bool.not_eq_eq_eq_not, Bool.not_true, beq_eq_false_iff_ne]
  refine ⟨⟨?_, by simpa using h2⟩, ?_⟩
  · simpa using h1
  · exact List.any_eq_true.mpr ⟨a, hmem, by simp⟩

/-- Claim C6, counterexample: the Beehiiv, TLDR and ConvertKit link
loops do keep script-protocol targets - an anchor whose href starts with
"javascript:" is returned unchanged - so the exclusion of
script-protocol links does not hold for every strategy. -/
theorem C6_counterexample_javascript_kept :
    NewsletterParser.beehiivCollectLinks [⟨"javascript:alert(1)", "click"⟩] =
      [⟨"javascript:alert(1)", "click"⟩]
    ∧ NewsletterParser.tldrCollectLinks [⟨"javascript:alert(1)", "click"⟩] =
      [⟨"javascript:alert(1)", "click"⟩]
    ∧ NewsletterParser.convertkitCollectLinks [⟨"javascript:alert(1)", "click"⟩] =
      [⟨"javascript:alert(1)", "click"⟩]
    ∧ pyStartsWith "javascript:alert(1)" "javascript:" = true := by
  refine ⟨by decide, by decide, by decide, by decide⟩

/-- Claim C6 as amended: for every strategy, every returned link comes
from an anchor of the input with a non-empty href, and no returned link
starts with "mailto:" or "#"; the "javascript:" exclusion additionally
holds for the Substack and Generic strategies, while the Beehiiv, TLDR
and ConvertKit loops test only "mailto:" and "#". -/
theorem C6_link_collection_exclusions (anchors : List NewsletterParser.Anchor) :
    ((NewsletterParser.substackCollectLinks anchors).all fun l =>
      !(l.url == "") && !(startsWithAny l.url ["mailto:", "#", "javascript:"]) &&
        anchors.any fun a => a.href == l.url && a.text == l.text) = true
    ∧ ((NewsletterParser.genericCollectLinks anchors).all fun l =>
        !(l.url == "") && !(startsWithAny l.url ["mailto:", "#", "javascript:"]) &&
          anchors.any fun a => a.href == l.url && a.text == l.text) = true
    ∧ ((NewsletterParser.beehiivCollectLinks anchors).all fun l =>
        !(l.url == "") && !(startsWithAny l.url ["mailto:", "#"]) &&
          anchors.any fun a => a.href == l.url && a.text == l.text) = true
    ∧ ((NewsletterParser.tldrCollectLinks anchors).all fun l =>
        !(l.url == "") && !(startsWithAny l.url ["mailto:", "#"]) &&
          anchors.any fun a => a.href == l.url && a.text == l.text) = true
    ∧ ((NewsletterParser.convertkitCollectLinks anchors).all fun l =>
        !(l.url == "") && !(startsWithAny l.url ["mailto:", "#"]) &&
          anchors.any fun a => a.href == l.url && a.text == l.text) = true :=
  ⟨collectLinks_all_props anchors ["mailto:", "#", "javascript:"],
   collectLinks_all_props anchors ["mailto:", "#", "javascript:"],
   collectLinks_all_props anchors ["mailto:", "#"],
   collectLinks_all_props anchors ["mailto:", "#"],
   collectLinks_all_props anchors ["mailto:", "#"]⟩

/-- The row constructor always raises: the parsed dict carries no
raw_html key, so the tenth keyword argument's subscript fails with
KeyError before the row exists. -/
theorem buildNewsletterRow_keyerror (scoped_id owner : String)
    (p : NewsletterService.ParsedMessage) (received_at : Int) :
    NewsletterService.buildNewsletterRow scoped_id owner p received_at =
      .error "KeyError: 'raw_html'" := rfl

/-- One iteration of the ingestion loop leaves the store, the
newly_parsed counter, the total_fetched counter and the per-category
counts unchanged and increments exactly one of already_exists and
parse_errors. -/
theorem processGmailMessage_step (env : NewsletterService.GmailIngestEnv) (owner : String)
    (st : List NewsletterService.NewsletterRow × NewsletterService.ExtractionStats × Nat)
    (mid : String) :
    (NewsletterService.processGmailMessage env owner st mid).1 = st.1
    ∧ (NewsletterService.processGmailMessage env owner st mid).2.1.newly_parsed
        = st.2.1.newly_parsed
    ∧ (NewsletterService.processGmailMessage env owner st mid).2.1.total_fetched
        = st.2.1.total_fetched
    ∧ (NewsletterService.processGmailMessage env owner st mid).2.1.by_category
        = st.2.1.by_category
    ∧ (NewsletterService.processGmailMessage env owner st mid).2.1.already_exists
        + (NewsletterService.processGmailMessage env owner st mid).2.1.parse_errors
      = st.2.1.already_exists + st.2.1.parse_errors + 1 := by
  obtain ⟨db, stats, tick⟩ := st
  simp only [NewsletterService.processGmailMessage]
  cases hf : db.find? (fun r => r.message_id == owner ++ "::" ++ mid) with
  | some r => simp <;> omega
  | none =>
    cases hg : env.getMessage mid with
    | error e => simp <;> omega
    | ok msg => simp [buildNewsletterRow_keyerror] <;> omega

/-- Folding the ingestion loop over a batch preserves the store and the
untouched counters, and adds the batch size to the sum of the
already_exists and parse_errors counters. -/
theorem foldl_processGmailMessage (env : NewsletterService.GmailIngestEnv) (owner : String)
    (msgs : List String) :
    ∀ st, ((msgs.foldl (NewsletterService.processGmailMessage env owner) st).1 = st.1)
    ∧ ((msgs.foldl (NewsletterService.processGmailMessage env owner) st).2.1.newly_parsed
        = st.2.1.newly_parsed)
    ∧ ((msgs.foldl (NewsletterService.processGmailMessage env owner) st).2.1.total_fetched
        = st.2.1.total_fetched)
    ∧ ((msgs.foldl (NewsletterService.processGmailMessage env owner) st).2.1.already_exists
        + (msgs.foldl (NewsletterService.processGmailMessage env owner) st).2.1.parse_errors
      = st.2.1.already_exists + st.2.1.parse_errors + msgs.length) := by
  induction msgs with
  | nil => intro st; simp
  | cons m ms ih =>
    intro st
    obtain ⟨s1, s2, s3, s4, s5⟩ := processGmailMessage_step env owner st m
    obtain ⟨r1, r2, r3, r4⟩ := ih (NewsletterService.processGmailMessage env owner st m)
    refine ⟨?_, ?_, ?_, ?_⟩
    · simpa [List.foldl_cons] using r1.trans s1
    · simpa [List.foldl_cons] using r2.trans s2
    · simpa [List.foldl_cons] using r3.trans s3
    · simp only [List.foldl_cons, List.length_cons]
      omega

/-- Claim C1 concerns a real code defect: dedup is checked against the
exact scoped identifier, but no record is ever persisted, because the
constructor call reads the raw_html key that the parser's result dict
does not contain, so every message raises KeyError and is counted as a
parse error. Consequently ingesting the same message twice leaves the
store empty both times, counts a parse error both times, and never
increments already_exists - the claim's idempotent-dedup behaviour is
unreachable. The theorem records: (no store growth and no newly_parsed
for any environment), (the constructor always raises KeyError on
raw_html), and the concrete double run at the failing input. -/
theorem C1_ingestion_never_persists :
    (∀ (env : NewsletterService.GmailIngestEnv)
        (db : List NewsletterService.NewsletterRow) (owner : Option String),
        (NewsletterService.extract_newsletters env db owner).1 = db
        ∧ (NewsletterService.extract_newsletters env db owner).2.newly_parsed = 0)
    ∧ (∀ (scoped_id owner : String) (p : NewsletterService.ParsedMessage) (received_at : Int),
        NewsletterService.buildNewsletterRow scoped_id owner p received_at =
          .error "KeyError: 'raw_html'")
    ∧ NewsletterService.extract_newsletters Samples.ingestEnvOk [] (some "user@example.com")
        = ([], { total_fetched := 1, already_exists := 0, newly_parsed := 0,
                 parse_errors := 1, by_category := [] })
    ∧ NewsletterService.extract_newsletters Samples.ingestEnvOk
        (NewsletterService.extract_newsletters Samples.ingestEnvOk []
          (some "user@example.com")).1
        (some "user@example.com")
        = ([], { total_fetched := 1, already_exists := 0, newly_parsed := 0,
                 parse_errors := 1, by_category := [] }) := by
  refine ⟨?_, buildNewsletterRow_keyerror, by decide, by decide⟩
  intro env db owner
  obtain ⟨h1, h2, -, -⟩ :=
    foldl_processGmailMessage env (NewsletterService.normalize_owner_email owner) env.messages
      (db, { total_fetched := env.messages.length, already_exists := 0,
             newly_parsed := 0, parse_errors := 0, by_category := [] }, 0)
  exact ⟨h1, h2⟩

/-- Claim C4 concerns the same defect: the received_at resolution block
itself behaves exactly as claimed - an unparsable (or absent) date
header falls back to the clock value read at that message's own loop
iteration (each reading consumes a fresh tick, so two messages read two
different instants), and a parsable header yields its UTC instant - but
the record carrying that timestamp is never persisted, because the
constructor raises KeyError on raw_html immediately afterwards. The
concrete two-message run consumes two distinct clock readings (final
tick 2) yet leaves the store empty with two parse errors. -/
theorem C4_received_at_fallback_computed_but_not_persisted :
    NewsletterService.resolveReceivedAt (fun _ => none) (fun i => 1700000000 + (i : Int)) 0
        "not-a-real-date" = (1700000000, 1)
    ∧ NewsletterService.resolveReceivedAt (fun _ => none) (fun i => 1700000000 + (i : Int)) 1
        "not-a-real-date" = (1700000001, 2)
    ∧ NewsletterService.resolveReceivedAt (fun _ => none) (fun i => 1700000000 + (i : Int)) 0
        "" = (1700000000, 1)
    ∧ NewsletterService.resolveReceivedAt (fun _ => some 1727784000)
        (fun i => 1700000000 + (i : Int)) 0 "Tue, 01 Oct 2024 12:00:00 +0000"
        = (1727784000, 0)
    ∧ (Samples.ingestEnvBadDates.messages.foldl
        (NewsletterService.processGmailMessage Samples.ingestEnvBadDates "user@example.com")
        ([], { total_fetched := 2, already_exists := 0, newly_parsed := 0,
               parse_errors := 0, by_category := [] }, 0)).2.2 = 2
    ∧ NewsletterService.extract_newsletters Samples.ingestEnvBadDates []
        (some "user@example.com")
        = ([], { total_fetched := 2, already_exists := 0, newly_parsed := 0,
                 parse_errors := 2, by_category := [] }) := by
  refine ⟨by decide, by decide, by decide, by decide, by decide, by decide⟩

/-- Claim C5: per-message failure isolation. Over any environment the
run returns a statistics object whose total_fetched is the batch size
and whose three outcome counters account for every candidate exactly
once (so no failing message aborts the loop); and each failing message
- whether the fetch raises or the persist step raises - increments
parse_errors by exactly one and leaves the store unchanged, after which
the loop moves to the next candidate. -/
theorem C5_per_message_failure_isolation :
    (∀ (env : NewsletterService.GmailIngestEnv)
        (db : List NewsletterService.NewsletterRow) (owner : Option String),
        (NewsletterService.extract_newsletters env db owner).2.total_fetched
          = env.messages.length
        ∧ (NewsletterService.extract_newsletters env db owner).2.already_exists
            + (NewsletterService.extract_newsletters env db owner).2.newly_parsed
            + (NewsletterService.extract_newsletters env db owner).2.parse_errors
          = env.messages.length)
    ∧ (∀ (env : NewsletterService.GmailIngestEnv) (owner : String)
        (db : List NewsletterService.NewsletterRow)
        (stats : NewsletterService.ExtractionStats) (tick : Nat) (mid err : String),
        db.find? (fun r => r.message_id == owner ++ "::" ++ mid) = none →
        env.getMessage mid = .error err →
        NewsletterService.processGmailMessage env owner (db, stats, tick) mid
          = (db, { stats with parse_errors := stats.parse_errors + 1 }, tick))
    ∧ (∀ (env : NewsletterService.GmailIngestEnv) (owner : String)
        (db : List NewsletterService.NewsletterRow)
        (stats : NewsletterService.ExtractionStats) (tick : Nat) (mid : String)
        (msg : NewsletterService.RawGmailMessage),
        db.find? (fun r => r.message_id == owner ++ "::" ++ mid) = none →
        env.getMessage mid = .ok msg →
        NewsletterService.processGmailMessage env owner (db, stats, tick) mid
          = (db, { stats with parse_errors := stats.parse_errors + 1 },
             (NewsletterService.resolveReceivedAt env.parseDate env.clock tick
               (env.parseMessage msg).date).2)) := by
  refine ⟨?_, ?_, ?_⟩
  · intro env db owner
    obtain ⟨-, h2, h3, h4⟩ :=
      foldl_processGmailMessage env (NewsletterService.normalize_owner_email owner) env.messages
        (db, { total_fetched := env.messages.length, already_exists := 0,
               newly_parsed := 0, parse_errors := 0, by_category := [] }, 0)
    refine ⟨h3, ?_⟩
    simp only [NewsletterService.extract_newsletters] at h2 h4 ⊢
    omega
  · intro env owner db stats tick mid err hf hg
    simp [NewsletterService.processGmailMessage, hf, hg]
  · intro env owner db stats tick mid msg hf hg
    simp [NewsletterService.processGmailMessage, hf, hg, buildNewsletterRow_keyerror]

/-- Claim C5 witness: a concrete batch whose single message fails to
fetch is counted as one parse error with the store unchanged, and a
concrete one-message run accounts for its whole batch. -/
theorem C5_witness_failing_fetch :
    NewsletterService.processGmailMessage
      { messages := ["m1"], getMessage := fun _ => .error "HttpError 500",
        parseMessage := fun _ => Samples.parsedOk, parseDate := fun _ => none,
        clock := fun i => (i : Int) } "u"
      ([],
        { total_fetched := 1, already_exists := 0,
          newly_parsed := 0, parse_errors := 0, by_category := [] }, 0) "m1"
      = ([],
        { total_fetched := 1, already_exists := 0, newly_parsed := 0,
          parse_errors := 1, by_category := [] }, 0)
    ∧ (NewsletterService.extract_newsletters Samples.ingestEnvOk []
        (some "user@example.com")).2.total_fetched = 1 :=
  ⟨C5_per_message_failure_isolation.2.1
      { messages := ["m1"], getMessage := fun _ => .error "HttpError 500",
        parseMessage := fun _ => Samples.parsedOk, parseDate := fun _ => none,
        clock := fun i => (i : Int) } "u" []
      { total_fetched := 1, already_exists := 0, newly_parsed := 0,
        parse_errors := 0, by_category := [] } 0 "m1" "HttpError 500" rfl rfl,
   (C5_per_message_failure_isolation.1 Samples.ingestEnvOk [] (some "user@example.com")).1⟩

/-- Claim C3, counterexample to "every category entry carries the
failure placeholder": on a date with one finance newsletter carrying raw
HTML and one product_ai newsletter without raw HTML, the finance entry
does carry the AttributeError failure placeholder with empty lists, but
the product_ai entry carries the distinct fixed no-content summary, not
the failure placeholder. -/
theorem C3_counterexample_no_html_category :
    (((DailyAiSummary.buildCategoriesMap Samples.summarizeOracleOk Samples.rollupOracle
        [Samples.rowWithHtml, Samples.rowNoHtml]).lookup "finance").map
          fun e => e.summary)
      = some (.str "Failed to generate AI summary: 'SummarizationService' object has no attribute 'create_category_rollup'")
    ∧ (((DailyAiSummary.buildCategoriesMap Samples.summarizeOracleOk Samples.rollupOracle
        [Samples.rowWithHtml, Samples.rowNoHtml]).lookup "product_ai").map
          fun e => e.summary)
      = some (.str "No content available for summarization.")
    ∧ ("No content available for summarization." : String)
        ≠ "Failed to generate AI summary: 'SummarizationService' object has no attribute 'create_category_rollup'"
    ∧ pyStartsWith "No content available for summarization."
        "Failed to generate AI summary" = false
    ∧ Samples.rowWithHtml.raw_html.getD "" ≠ "" := by
  refine ⟨rfl, rfl, by decide, by decide, by decide⟩

/-- Claim C3 as amended: the service class defines no method named
create_category_rollup, so for every category containing at least one
newsletter with non-empty raw HTML the stage-2 rollup call raises
AttributeError; the per-category handler replaces the summary with the
failure placeholder built from that error, empties key_points, and
discards the successful stage-1 summaries (the newsletters list comes
back empty). A category whose newsletters all lack raw HTML instead
receives the fixed no-content summary. -/
theorem C3_missing_rollup_fails_category
    (summarize : NewsletterService.NewsletterRow → Except String Json)
    (rollup : List Json → String → Json) (display_name : String)
    (nls : List NewsletterService.NewsletterRow)
    (h : ∃ nl ∈ nls, nl.raw_html.getD "" ≠ "") :
    "create_category_rollup" ∉ SummarizationService.serviceMethodNames
    ∧ DailyAiSummary.processCategory summarize rollup display_name nls =
      { display_name := display_name
        newsletter_count := nls.length
        summary := .str "Failed to generate AI summary: 'SummarizationService' object has no attribute 'create_category_rollup'"
        key_points := .arr []
        newsletters := []
        ai_generated := .bool true } := by
  refine ⟨by decide, ?_⟩
  have hne : nls.filter (fun nl => !(nl.raw_html.getD "" == "")) ≠ [] := by
    obtain ⟨nl, hmem, hh⟩ := h
    intro hnil
    have h2 := List.filter_eq_nil.mp hnil nl hmem
    simp at h2
    exact hh h2
  cases hx : nls.filter (fun nl => !(nl.raw_html.getD "" == "")) with
  | nil => exact absurd hx hne
  | cons x xs =>
    simp only [DailyAiSummary.processCategory, hx, List.map_cons, List.isEmpty_cons,
      Bool.not_false, if_true, DailyAiSummary.create_category_rollup_call]
    rw [if_neg (by decide)]
    rfl

/-- Claim C3 witness: a concrete finance category with one raw-HTML
newsletter and an always-succeeding stage-1 summarizer still comes back
as the failure-placeholder entry with the stage-1 result discarded. -/
theorem C3_witness_concrete_category :
    (∃ nl ∈ [Samples.rowWithHtml], nl.raw_html.getD "" ≠ "")
    ∧ DailyAiSummary.processCategory Samples.summarizeOracleOk Samples.rollupOracle "Finance"
        [Samples.rowWithHtml] =
      { display_name := "Finance"
        newsletter_count := 1
        summary := .str "Failed to generate AI summary: 'SummarizationService' object has no attribute 'create_category_rollup'"
        key_points := .arr []
        newsletters := []
        ai_generated := .bool true } :=
  have h : ∃ nl ∈ [Samples.rowWithHtml], nl.raw_html.getD "" ≠ "" :=
    ⟨Samples.rowWithHtml, by simp, by decide⟩
  ⟨h, (C3_missing_rollup_fails_category Samples.summarizeOracleOk Samples.rollupOracle
    "Finance" [Samples.rowWithHtml] h).2⟩

/-- Splitting yields at least two parts exactly when the separator
occurs. -/
theorem two_le_listSplitOn_iff_hasInfix (sep : List Char) (xs : List Char) :
    2 ≤ (listSplitOn sep xs).length ↔ hasInfix sep xs = true := by
  induction xs with
  | nil => rw [listSplitOn_nil]; simp [hasInfix]
  | cons c cs ih =>
    rw [listSplitOn_cons]
    by_cases hp : sep.isPrefixOf (c :: cs)
    · rw [if_pos hp]
      simp only [hasInfix, hp, Bool.true_or]
      have hnn := listSplitOn_ne_nil sep (List.drop (sep.length - 1) cs)
      constructor
      · intro _; trivial
      · intro _
        have h1 : 1 ≤ (listSplitOn sep (List.drop (sep.length - 1) cs)).length :=
          Nat.one_le_iff_ne_zero.mpr (by simpa [List.length_eq_zero] using hnn)
        simpa using h1
    · rw [if_neg hp]
      have hp' : sep.isPrefixOf (c :: cs) = false := by
        rw [← Bool.not_eq_true]; exact hp
      simp only [hasInfix, hp', Bool.false_or]
      cases h : listSplitOn sep cs with
      | nil => exact absurd h (listSplitOn_ne_nil _ _)
      | cons p ps =>
        rw [h] at ih
        simpa using ih

/-- A longer pattern occurring forces its prefix to occur. -/
theorem hasInfix_mono (u v xs : List Char) (h : hasInfix (u ++ v) xs = true) :
    hasInfix u xs = true := by
  induction xs with
  | nil => simpa [hasInfix] using h
  | cons c cs ih =>
    simp only [hasInfix, Bool.or_eq_true] at h ⊢
    rcases h with h | h
    · left
      rw [List.isPrefixOf_iff_prefix] at h ⊢
      exact (List.prefix_append u v).trans h
    · exact Or.inr (ih h)

/-- Splitting on a pattern that does not occur returns the whole input
as the only part. -/
theorem listSplitOn_of_not_hasInfix (sep : List Char) (xs : List Char)
    (h : hasInfix sep xs = false) : listSplitOn sep xs = [xs] := by
  induction xs with
  | nil => exact listSplitOn_nil sep
  | cons c cs ih =>
    simp only [hasInfix, Bool.or_eq_false_iff] at h
    rw [listSplitOn_cons, if_neg (by simp [h.1]), ih h.2]

/-- Splitting an input that starts with the separator cuts an empty
first part. -/
theorem listSplitOn_self_append (sep ys : List Char) (hs : sep ≠ []) :
    listSplitOn sep (sep ++ ys) = [] :: listSplitOn sep ys := by
  cases sep with
  | nil => exact absurd rfl hs
  | cons s st =>
    rw [show (s :: st) ++ ys = s :: (st ++ ys) from rfl, listSplitOn_cons]
    have hp : (s :: st).isPrefixOf (s :: (st ++ ys)) = true := by
      rw [List.isPrefixOf_iff_prefix]
      exact ⟨ys, by simp⟩
    rw [if_pos hp]
    congr 1
    simp [List.drop_left]

/-- The backtick character differs from the newline character. -/
theorem backtick_ne_newline : (Char.ofNat 96 == Char.ofNat 10) = false := by decide

/-- Boolean absorption: a false three-way conjunction stays false when a
fourth conjunct is appended innermost. -/
theorem bool_and3_absorb (b1 b2 b3 t : Bool) (h : (b1 && (b2 && b3)) = false) :
    (b1 && (b2 && (b3 && t))) = false := by
  revert b1 b2 b3 t
  decide

/-- If the fence does not occur in a text, the json fence marker does
not occur in the text followed by a newline and a closing fence: the
newline breaks every candidate run of backticks, and the closing fence
is too short to carry the marker. -/
theorem no_fenceJson_in_wrapped (tl : List Char) (h : hasInfix fenceChars tl = false) :
    hasInfix fenceJsonChars (tl ++ Char.ofNat 10 :: fenceChars) = false := by
  induction tl with
  | nil => decide
  | cons c tl' ih =>
    simp only [hasInfix, Bool.or_eq_false_iff] at h
    obtain ⟨h1, h2⟩ := h
    simp only [List.cons_append, hasInfix, Bool.or_eq_false_iff]
    refine ⟨?_, ih h2⟩
    cases tl' with
    | nil =>
      simp [fenceJsonChars, List.isPrefixOf, backtick_ne_newline]
    | cons d tl'' =>
      cases tl'' with
      | nil =>
        simp [fenceJsonChars, List.isPrefixOf, backtick_ne_newline]
      | cons e rest =>
        simp only [fenceJsonChars, fenceChars, List.isPrefixOf, List.cons_append,
          List.isPrefixOf_nil_left, Bool.and_true] at h1 ⊢
        exact bool_and3_absorb _ _ _ _ h1

/-- If the fence does not occur in a text, it does not occur in the
text followed by a single newline either. -/
theorem no_fence_append_newline (tl : List Char) (h : hasInfix fenceChars tl = false) :
    hasInfix fenceChars (tl ++ [Char.ofNat 10]) = false := by
  induction tl with
  | nil => decide
  | cons c tl' ih =>
    simp only [hasInfix, Bool.or_eq_false_iff] at h
    obtain ⟨h1, h2⟩ := h
    simp only [List.cons_append, hasInfix, Bool.or_eq_false_iff]
    refine ⟨?_, ih h2⟩
    cases tl' with
    | nil =>
      simp [fenceChars, List.isPrefixOf, backtick_ne_newline]
    | cons d tl'' =>
      cases tl'' with
      | nil =>
        simp [fenceChars, List.isPrefixOf, backtick_ne_newline]
      | cons e rest =>
        simp only [fenceChars, List.isPrefixOf, List.cons_append,
          List.isPrefixOf_nil_left, Bool.and_true] at h1 ⊢
        exact h1

/-- Splitting on the fence across a text with no fence occurrence, a
newline barrier, a fence and a remainder: the first cut happens exactly
at that fence. -/
theorem listSplitOn_fence_barrier (tl ys : List Char) (h : hasInfix fenceChars tl = false) :
    listSplitOn fenceChars (tl ++ Char.ofNat 10 :: fenceChars ++ ys)
      = (tl ++ [Char.ofNat 10]) :: listSplitOn fenceChars ys := by
  induction tl with
  | nil =>
    simp only [List.nil_append]
    rw [show (Char.ofNat 10 :: fenceChars ++ ys : List Char)
        = Char.ofNat 10 :: (fenceChars ++ ys) from rfl, listSplitOn_cons]
    have hfalse : fenceChars.isPrefixOf (Char.ofNat 10 :: (fenceChars ++ ys)) = false := by
      simp [fenceChars, List.isPrefixOf, backtick_ne_newline]
    rw [if_neg (by simp [hfalse]), listSplitOn_self_append fenceChars ys (by decide)]
  | cons c tl' ih =>
    simp only [hasInfix, Bool.or_eq_false_iff] at h
    obtain ⟨h1, h2⟩ := h
    have hfalse : fenceChars.isPrefixOf
        (c :: (tl' ++ Char.ofNat 10 :: fenceChars ++ ys)) = false := by
      cases tl' with
      | nil =>
        simp [fenceChars, List.isPrefixOf, backtick_ne_newline]
      | cons d tl'' =>
        cases tl'' with
        | nil =>
          simp [fenceChars, List.isPrefixOf, backtick_ne_newline]
        | cons e rest =>
          simp only [fenceChars, List.isPrefixOf, List.cons_append,
            List.isPrefixOf_nil_left, Bool.and_true] at h1 ⊢
          exact h1
    show listSplitOn fenceChars (c :: (tl' ++ Char.ofNat 10 :: fenceChars ++ ys)) =
      ((c :: tl') ++ [Char.ofNat 10]) :: listSplitOn fenceChars ys
    rw [listSplitOn_cons, if_neg (by rw [hfalse]; simp), ih h2]
    simp

/-- Stripping ignores a leading newline. -/
theorem stripChars_cons_newline (xs : List Char) :
    stripChars (Char.ofNat 10 :: xs) = stripChars xs := by
  simp [stripChars, List.dropWhile_cons,
    (by decide : (Char.ofNat 10).isWhitespace = true)]

/-- Stripping ignores a trailing newline. -/
theorem stripChars_append_newline (xs : List Char) :
    stripChars (xs ++ [Char.ofNat 10]) = stripChars xs := by
  unfold stripChars
  rw [List.dropWhile_append]
  by_cases he : (xs.dropWhile fun c => c.isWhitespace).isEmpty
  · rw [if_pos he]
    have h2 : (xs.dropWhile fun c => c.isWhitespace) = [] := by
      simpa [List.isEmpty_iff] using he
    rw [h2]
    simp [List.dropWhile_cons, (by decide : (Char.ofNat 10).isWhitespace = true)]
  · rw [if_neg he]
    rw [List.reverse_append]
    simp [List.dropWhile_cons, (by decide : (Char.ofNat 10).isWhitespace = true)]

/-- The substring test is the occurrence test on character lists. -/
theorem strContains_eq_hasInfix (s pat : String) :
    strContains s pat = hasInfix pat.toList s.toList := by
  rw [Bool.eq_iff_iff]
  constructor
  · intro hc
    have h2 : 2 ≤ (listSplitOn pat.toList s.toList).length := by
      simpa [strContains, pySplit] using hc
    exact (two_le_listSplitOn_iff_hasInfix _ _).mp h2
  · intro hi
    have h2 := (two_le_listSplitOn_iff_hasInfix pat.toList s.toList).mpr hi
    simpa [strContains, pySplit] using h2

/-- A response with no fence at all is left untouched by the fence
stripper. -/
theorem extractCodeBlockText_of_no_fence (T : String)
    (h : strContains T "```" = false) :
    SummarizationService.extractCodeBlockText T = T := by
  have hinf : hasInfix fenceChars T.toList = false := by
    rw [strContains_eq_hasInfix, (by decide : "```".toList = fenceChars)] at h
    exact h
  have hj : strContains T "```json" = false := by
    rw [strContains_eq_hasInfix, (by decide : "```json".toList = fenceJsonChars)]
    rw [← Bool.not_eq_true]
    intro hcon
    have := hasInfix_mono fenceChars (['j', 's', 'o', 'n'] : List Char) T.toList
      (by rw [show fenceChars ++ (['j', 's', 'o', 'n'] : List Char) = fenceJsonChars
        from by decide]; exact hcon)
    rw [hinf] at this
    exact Bool.false_ne_true this
  have hf : strContains T "```" = false := h
  unfold SummarizationService.extractCodeBlockText
  rw [if_neg (by rw [hj]; simp), if_neg (by rw [hf]; simp)]

/-- Splitting the inner newline-wrapped text followed by the closing
fence: one text part and one empty tail part. -/
theorem listSplitOn_fence_inner (Tl : List Char) (hinf : hasInfix fenceChars Tl = false) :
    listSplitOn fenceChars (Char.ofNat 10 :: (Tl ++ Char.ofNat 10 :: fenceChars))
      = [Char.ofNat 10 :: (Tl ++ [Char.ofNat 10]), []] := by
  have hh : hasInfix fenceChars (Char.ofNat 10 :: Tl) = false := by
    have h1 : fenceChars.isPrefixOf (Char.ofNat 10 :: Tl) = false := by
      simp [fenceChars, List.isPrefixOf, backtick_ne_newline]
    simp [hasInfix, h1, hinf]
  have he : (Char.ofNat 10 :: (Tl ++ Char.ofNat 10 :: fenceChars))
      = (Char.ofNat 10 :: Tl) ++ Char.ofNat 10 :: fenceChars ++ [] := by simp
  rw [he, listSplitOn_fence_barrier _ _ hh, listSplitOn_nil]
  simp

/-- Unwrap computation for a response wrapped in a json code fence: the
stripper returns the text surrounded by the wrapper's two newlines. -/
theorem extractCodeBlockText_wrapped_json (T : String) (h : strContains T "```" = false) :
    SummarizationService.extractCodeBlockText ("```json\n" ++ T ++ "\n```")
      = String.mk (Char.ofNat 10 :: (T.data ++ [Char.ofNat 10])) := by
  have hinf : hasInfix fenceChars T.data = false := by
    rw [strContains_eq_hasInfix, (by decide : "```".toList = fenceChars)] at h
    exact h
  have hWlist : ("```json\n" ++ T ++ "\n```").data
      = fenceJsonChars ++ (Char.ofNat 10 :: (T.data ++ Char.ofNat 10 :: fenceChars)) := by
    rw [String.data_append, String.data_append,
      show "```json\n".data = fenceJsonChars ++ [Char.ofNat 10] from by decide,
      show "\n```".data = Char.ofNat 10 :: fenceChars from by decide]
    simp
  have hrest : hasInfix fenceJsonChars
      (Char.ofNat 10 :: (T.data ++ Char.ofNat 10 :: fenceChars)) = false := by
    have h1 : fenceJsonChars.isPrefixOf
        (Char.ofNat 10 :: (T.data ++ Char.ofNat 10 :: fenceChars)) = false := by
      simp [fenceJsonChars, List.isPrefixOf, backtick_ne_newline]
    simp [hasInfix, h1, no_fenceJson_in_wrapped T.data hinf]
  have hsplitJ : listSplitOn fenceJsonChars ("```json\n" ++ T ++ "\n```").data
      = [[], Char.ofNat 10 :: (T.data ++ Char.ofNat 10 :: fenceChars)] := by
    rw [hWlist, listSplitOn_self_append _ _ (by decide),
      listSplitOn_of_not_hasInfix _ _ hrest]
  have hcont : strContains ("```json\n" ++ T ++ "\n```") "```json" = true := by
    rw [strContains_eq_hasInfix, (by decide : "```json".toList = fenceJsonChars)]
    exact (two_le_listSplitOn_iff_hasInfix _ _).mp (by rw [show ("```json\n" ++ T ++ "\n```").toList = ("```json\n" ++ T ++ "\n```").data from rfl, hsplitJ]; simp)
  have hps1 : pySplit ("```json\n" ++ T ++ "\n```") "```json"
      = [String.mk [],
         String.mk (Char.ofNat 10 :: (T.data ++ Char.ofNat 10 :: fenceChars))] := by
    unfold pySplit
    rw [show "```json".toList = fenceJsonChars from by decide,
      show ("```json\n" ++ T ++ "\n```").toList = ("```json\n" ++ T ++ "\n```").data from rfl,
      hsplitJ]
    rfl
  have hps2 : pySplit
      (String.mk (Char.ofNat 10 :: (T.data ++ Char.ofNat 10 :: fenceChars))) "```"
      = [String.mk (Char.ofNat 10 :: (T.data ++ [Char.ofNat 10])), String.mk []] := by
    unfold pySplit
    rw [show "```".toList = fenceChars from by decide,
      show (String.mk (Char.ofNat 10 :: (T.data ++ Char.ofNat 10 :: fenceChars))).toList
        = Char.ofNat 10 :: (T.data ++ Char.ofNat 10 :: fenceChars) from rfl,
      listSplitOn_fence_inner T.data hinf]
    rfl
  unfold SummarizationService.extractCodeBlockText
  rw [if_pos hcont, hps1]
  simp [hps2]

/-- Unwrap computation for a response wrapped in a plain code fence:
the json branch is not taken (the json marker occurs nowhere) and the
plain branch returns the text surrounded by the wrapper's newlines. -/
theorem extractCodeBlockText_wrapped_plain (T : String) (h : strContains T "```" = false) :
    SummarizationService.extractCodeBlockText ("```\n" ++ T ++ "\n```")
      = String.mk (Char.ofNat 10 :: (T.data ++ [Char.ofNat 10])) := by
  have hinf : hasInfix fenceChars T.data = false := by
    rw [strContains_eq_hasInfix, (by decide : "```".toList = fenceChars)] at h
    exact h
  have hWlist : ("```\n" ++ T ++ "\n```").data
      = fenceChars ++ (Char.ofNat 10 :: (T.data ++ Char.ofNat 10 :: fenceChars)) := by
    rw [String.data_append, String.data_append,
      show "```\n".data = fenceChars ++ [Char.ofNat 10] from by decide,
      show "\n```".data = Char.ofNat 10 :: fenceChars from by decide]
    simp
  have hnj : hasInfix fenceJsonChars ("```\n" ++ T ++ "\n```").data = false := by
    rw [hWlist, show fenceChars ++ (Char.ofNat 10 :: (T.data ++ Char.ofNat 10 :: fenceChars))
      = Char.ofNat 96 :: Char.ofNat 96 :: Char.ofNat 96 :: Char.ofNat 10 ::
        (T.data ++ Char.ofNat 10 :: fenceChars) from rfl]
    simp only [hasInfix, Bool.or_eq_false_iff]
    refine ⟨?_, ?_, ?_, ?_, no_fenceJson_in_wrapped T.data hinf⟩ <;>
      simp [fenceJsonChars, List.isPrefixOf, backtick_ne_newline,
        (by decide : (('j' : Char) == Char.ofNat 10) = false)]
  have hnjs : strContains ("```\n" ++ T ++ "\n```") "```json" = false := by
    rw [strContains_eq_hasInfix, (by decide : "```json".toList = fenceJsonChars)]
    exact hnj
  have hsplitF : listSplitOn fenceChars ("```\n" ++ T ++ "\n```").data
      = [[], Char.ofNat 10 :: (T.data ++ [Char.ofNat 10]), []] := by
    rw [hWlist, listSplitOn_self_append _ _ (by decide),
      listSplitOn_fence_inner T.data hinf]
  have hcontF : strContains ("```\n" ++ T ++ "\n```") "```" = true := by
    rw [strContains_eq_hasInfix, (by decide : "```".toList = fenceChars)]
    exact (two_le_listSplitOn_iff_hasInfix _ _).mp
      (by rw [show ("```\n" ++ T ++ "\n```").toList = ("```\n" ++ T ++ "\n```").data from rfl,
        hsplitF]; simp)
  have hps1 : pySplit ("```\n" ++ T ++ "\n```") "```"
      = [String.mk [], String.mk (Char.ofNat 10 :: (T.data ++ [Char.ofNat 10])),
         String.mk []] := by
    unfold pySplit
    rw [show "```".toList = fenceChars from by decide,
      show ("```\n" ++ T ++ "\n```").toList = ("```\n" ++ T ++ "\n```").data from rfl,
      hsplitF]
    rfl
  have hps2 : pySplit (String.mk (Char.ofNat 10 :: (T.data ++ [Char.ofNat 10]))) "```"
      = [String.mk (Char.ofNat 10 :: (T.data ++ [Char.ofNat 10]))] := by
    have h1 : fenceChars.isPrefixOf
        (Char.ofNat 10 :: (T.data ++ [Char.ofNat 10])) = false := by
      simp [fenceChars, List.isPrefixOf, backtick_ne_newline]
    have h2 : hasInfix fenceChars (Char.ofNat 10 :: (T.data ++ [Char.ofNat 10])) = false := by
      simp [hasInfix, h1, no_fence_append_newline T.data hinf]
    unfold pySplit
    rw [show "```".toList = fenceChars from by decide,
      show (String.mk (Char.ofNat 10 :: (T.data ++ [Char.ofNat 10]))).toList
        = Char.ofNat 10 :: (T.data ++ [Char.ofNat 10]) from rfl,
      listSplitOn_of_not_hasInfix _ _ h2]
    rfl
  unfold SummarizationService.extractCodeBlockText
  rw [if_neg (by rw [hnjs]; simp), if_pos hcontF, hps1]
  simp [hps2]

/-- Stripping removes exactly the wrapper's two newlines. -/
theorem pyStrip_newline_wrap (T : String) :
    pyStrip (String.mk (Char.ofNat 10 :: (T.data ++ [Char.ofNat 10]))) = pyStrip T := by
  unfold pyStrip
  rw [show (String.mk (Char.ofNat 10 :: (T.data ++ [Char.ofNat 10]))).toList
      = Char.ofNat 10 :: (T.data ++ [Char.ofNat 10]) from rfl,
    stripChars_cons_newline, stripChars_append_newline]
  rfl

/-- Binding a succeeded Except value applies the continuation. -/
theorem except_ok_bind {e a b : Type} (x : a) (f : a → Except e b) :
    (Except.ok x >>= f) = f x := rfl

/-- Claim C8 as amended: for every model response text T that contains
no fence delimiter of its own and whose stripped form parses as
structured data, summarize_newsletter returns an identical result
whether the response arrives wrapped in a json code fence, wrapped in a
plain code fence, or unwrapped - the wrapper is stripped before the
structural parse. (The original claim's unconditional equivalence fails
when T itself contains the fence delimiter; see the counterexample.) -/
theorem C8_code_fence_unwrap_equiv (T : String)
    (hfence : strContains T "```" = false)
    (hparse : (jsonParse (pyStrip T)).isSome = true)
    (u : SummarizationService.TokenUsage)
    (model html_content sender_name subject : String)
    (stats : SummarizationService.SessionStats) :
    SummarizationService.summarize_newsletter (fun _ => .ok ⟨"```json\n" ++ T ++ "\n```", u⟩)
        model stats html_content sender_name subject
      = SummarizationService.summarize_newsletter (fun _ => .ok ⟨T, u⟩)
          model stats html_content sender_name subject
    ∧ SummarizationService.summarize_newsletter (fun _ => .ok ⟨"```\n" ++ T ++ "\n```", u⟩)
        model stats html_content sender_name subject
      = SummarizationService.summarize_newsletter (fun _ => .ok ⟨T, u⟩)
          model stats html_content sender_name subject := by
  obtain ⟨j, hj⟩ := Option.isSome_iff_exists.mp hparse
  have hT := extractCodeBlockText_of_no_fence T hfence
  have hW1 := extractCodeBlockText_wrapped_json T hfence
  have hW2 := extractCodeBlockText_wrapped_plain T hfence
  have hstrip := pyStrip_newline_wrap T
  constructor
  · simp only [SummarizationService.summarize_newsletter, except_ok_bind, hW1, hT, hstrip, hj]
    cases j <;> rfl
  · simp only [SummarizationService.summarize_newsletter, except_ok_bind, hW2, hT, hstrip, hj]
    cases j <;> rfl

/-- Claim C8, counterexample: a response text that itself contains the
fence delimiter parses as structured data when unwrapped semantics are
applied directly, yet wrapped and unwrapped runs disagree - both fall
into the parse-error placeholder whose summary carries the raw response
text, which differs between the two runs. -/
theorem C8_counterexample_fence_in_text :
    (jsonParse (pyStrip "\x7b\"summary\": \"``` fenced\"\x7d")).isSome = true
    ∧ ((SummarizationService.summarize_newsletter
          (fun _ => .ok ⟨"```json\n" ++ "\x7b\"summary\": \"``` fenced\"\x7d" ++ "\n```",
            ⟨0, 0⟩⟩)
          "claude-sonnet-4-20250514" ⟨0, 0, 0, 0⟩ "h" "Sender" "Subj").toOption.map
            fun r => (r.1.getFieldD "summary" (.str "")).asStrD "")
        = some ("```json\n" ++ "\x7b\"summary\": \"``` fenced\"\x7d" ++ "\n```")
    ∧ ((SummarizationService.summarize_newsletter
          (fun _ => .ok ⟨"\x7b\"summary\": \"``` fenced\"\x7d", ⟨0, 0⟩⟩)
          "claude-sonnet-4-20250514" ⟨0, 0, 0, 0⟩ "h" "Sender" "Subj").toOption.map
            fun r => (r.1.getFieldD "summary" (.str "")).asStrD "")
        = some "\x7b\"summary\": \"``` fenced\"\x7d"
    ∧ ("```json\n" ++ "\x7b\"summary\": \"``` fenced\"\x7d" ++ "\n```" : String)
        ≠ "\x7b\"summary\": \"``` fenced\"\x7d" := by
  refine ⟨rfl, by decide, by decide, by decide⟩

/-- Claim C8 witness: a fence-free JSON response yields the same result
wrapped as unwrapped, by the amended theorem at a concrete input. -/
theorem C8_witness_wrapped_equiv :
    SummarizationService.summarize_newsletter
        (fun _ => .ok ⟨"```json\n" ++ "\x7b\"title\": \"x\"\x7d" ++ "\n```", ⟨10, 20⟩⟩)
        "claude-sonnet-4-20250514" ⟨0, 0, 0, 0⟩ "h" "Sender" "Subj"
      = SummarizationService.summarize_newsletter
          (fun _ => .ok ⟨"\x7b\"title\": \"x\"\x7d", ⟨10, 20⟩⟩)
          "claude-sonnet-4-20250514" ⟨0, 0, 0, 0⟩ "h" "Sender" "Subj" :=
  (C8_code_fence_unwrap_equiv "\x7b\"title\": \"x\"\x7d" (by decide) (by decide)
    ⟨10, 20⟩ "claude-sonnet-4-20250514" "h" "Sender" "Subj" ⟨0, 0, 0, 0⟩).1
